import Mathlib

/-!
Shallow embedding of the cricket scoring engine of
src/modules/events (interfaces/cricket.interface.ts together with the
CricketScoringService found in the same bundle).  TypeScript numbers
holding run tallies are modelled as Int, counters as Nat, derived rates
as Rat.  JS Map objects are modelled as insertion-ordered association
lists; JS string-enum truthiness is modelled through the literal enum
strings.  Fields that the service only ever writes and that no claim
observes (timestamps, uuids, commentary text, the context snapshot
stamped on an event, meta) are omitted.
-/

set_option autoImplicit false

namespace Cricket

-- ============ Enums (interfaces/cricket.interface.ts) ============

inductive ExtraType
  | none | wide | noBall | bye | legBye | penalty
deriving DecidableEq, Repr

/-- String value of each ExtraType enum member, as declared in the source. -/
def extraTypeStr : ExtraType → String
  | ExtraType.none => "none"
  | ExtraType.wide => "wide"
  | ExtraType.noBall => "no_ball"
  | ExtraType.bye => "bye"
  | ExtraType.legBye => "leg_bye"
  | ExtraType.penalty => "penalty"

inductive WicketType
  | bowled | caught | lbw | runOut | stumped | hitWicket
  | retiredHurt | retiredOut | timedOut | obstructing
deriving DecidableEq, Repr

inductive MatchStatus
  | pending | toss | active | inningsBreak | paused | completed | abandoned
deriving DecidableEq, Repr

inductive InningsStatus
  | notStarted | inProgress | completed | declared
deriving DecidableEq, Repr

inductive MatchResult
  | teamAWon | teamBWon | tie | draw | noResult
deriving DecidableEq, Repr

inductive TossDecision
  | bat | bowl
deriving DecidableEq, Repr

inductive TokenTier
  | niftyFifty | gayleStorm | fiveWicketHaul | hatTrick
  | maidenMaster | runMachine | goldenArm | allRounder
deriving DecidableEq, Repr

/-- Commentary triggers emitted by the embedded service functions. -/
inductive Trigger
  | maidenOver | wicket
deriving DecidableEq, Repr

-- ============ Configuration ============

structure MatchConfig where
  oversPerInnings : Nat
  playersPerSide : Nat
  powerplayOvers : List Nat
  maxOversPerBowler : Nat
  wideRedelivery : Bool
  noBallRedelivery : Bool
  freeHitOnNoBall : Bool
  superOverOnTie : Bool
deriving DecidableEq, Repr

/-- MatchConfigDto: maxOversPerBowler is optional (and 0 is falsy in JS). -/
structure MatchConfigDto where
  oversPerInnings : Nat
  playersPerSide : Nat
  powerplayOvers : List Nat
  maxOversPerBowler : Option Nat
  wideRedelivery : Bool
  noBallRedelivery : Bool
  freeHitOnNoBall : Bool
  superOverOnTie : Bool
deriving DecidableEq, Repr

-- ============ Ball event ============

structure BallExtras where
  type : ExtraType
  runs : Int
deriving DecidableEq, Repr

structure BallWicket where
  isWicket : Bool
  type : Option WicketType
  dismissedPlayer : Option String
  fielder : Option String
deriving DecidableEq, Repr

structure BallActors where
  batsmanOnStrike : String
  batsmanNonStrike : String
  bowler : String
  fielder : Option String
deriving DecidableEq, Repr

structure BallPayload where
  runsScored : Int
  isBoundary : Bool
  isSix : Bool
  isDotBall : Bool
  extras : BallExtras
  wicket : BallWicket
deriving DecidableEq, Repr

/-- BallBowledEvent.  The uuid is modelled as a Nat counter value. -/
structure BallEvent where
  id : Nat
  actors : BallActors
  payload : BallPayload
  isDeleted : Bool
deriving DecidableEq, Repr

-- ============ Statistics and innings state ============

structure BatsmanStats where
  playerId : String
  runs : Int
  ballsFaced : Nat
  fours : Nat
  sixes : Nat
  strikeRate : Rat
  isOut : Bool
  dismissalType : Option WicketType
  dismissedBy : Option String
  fielder : Option String
deriving DecidableEq, Repr

structure BowlerStats where
  playerId : String
  overs : Nat
  balls : Nat
  maidens : Nat
  runsConceded : Int
  wickets : Nat
  economyRate : Rat
  wides : Nat
  noBalls : Nat
  dotBalls : Nat
deriving DecidableEq, Repr

structure Partnership where
  batsman1 : String
  batsman2 : String
  runs : Int
  balls : Nat
  startScore : Int
  endScore : Option Int
  isActive : Bool
deriving DecidableEq, Repr

structure FallOfWicket where
  wicketNumber : Nat
  score : Int
  overs : Nat
  balls : Nat
  dismissedPlayer : String
  dismissalType : Option WicketType
deriving DecidableEq, Repr

structure ExtrasTally where
  wides : Int
  noBalls : Int
  byes : Int
  legByes : Int
  penalties : Int
  total : Int
deriving DecidableEq, Repr

structure InningsState where
  inningsNumber : Nat
  battingTeamId : String
  bowlingTeamId : String
  status : InningsStatus
  totalRuns : Int
  wickets : Nat
  overs : Nat
  balls : Nat
  extras : ExtrasTally
  runRate : Rat
  batsmanOnStrike : Option String
  batsmanNonStrike : Option String
  currentBowler : Option String
  batsmanStats : List (String × BatsmanStats)
  bowlerStats : List (String × BowlerStats)
  partnerships : List Partnership
  fallOfWickets : List FallOfWicket
  overHistory : List (List BallEvent)
  target : Option Int
  requiredRunRate : Option Rat
  requiredRuns : Option Int
  remainingBalls : Option Int
deriving DecidableEq, Repr

structure MatchState where
  config : MatchConfig
  status : MatchStatus
  teamAId : String
  teamBId : String
  tossWinner : Option String
  tossDecision : Option TossDecision
  currentInnings : Nat
  innings1 : Option InningsState
  innings2 : Option InningsState
  result : Option MatchResult
  winningTeam : Option String
  events : List BallEvent
  undoStack : List BallEvent
  eventCounter : Nat
deriving DecidableEq, Repr

structure TokenReward where
  tier : TokenTier
  playerId : String
  burnMultiplier : Rat
deriving DecidableEq, Repr

-- ============ JS Map as insertion-ordered association list ============

/-- Map.get: first binding of the key, if any. -/
def lookupA {α : Type} : List (String × α) → String → Option α
  | [], _ => Option.none
  | (k', v) :: rest, k => if k' = k then some v else lookupA rest k

/-- Map.set: overwrite an existing binding in place, else append. -/
def insertA {α : Type} : List (String × α) → String → α → List (String × α)
  | [], k, v => [(k, v)]
  | (k', v') :: rest, k, v =>
      if k' = k then (k, v) :: rest else (k', v') :: insertA rest k v

/-- Mutation of the object a Map.get returned: rewrite the binding in place
(no effect when the key is absent, mirroring an undefined guard). -/
def updateA {α : Type} : List (String × α) → String → (α → α) → List (String × α)
  | [], _, _ => []
  | (k', v') :: rest, k, f =>
      if k' = k then (k', f v') :: rest else (k', v') :: updateA rest k f

def containsA {α : Type} (m : List (String × α)) (k : String) : Bool :=
  (lookupA m k).isSome

-- ============ Small JS semantics helpers ============

/-- JS truthiness of the or-default idiom on an optional string: undefined and
the empty string are falsy. -/
def jsOrElse (o : Option String) (d : String) : String :=
  match o with
  | Option.none => d
  | some s => if s = "" then d else s

/-- Array.prototype.slice with non-negative bounds. -/
def jsSlice {α : Type} (l : List α) (a b : Nat) : List α :=
  (l.take b).drop a

/-- Second-to-last element, the source's overHistory[length - 2] access. -/
def secondLast {α : Type} (l : List α) : Option α :=
  l.dropLast.getLast?

/-- Append an element to the last inner list, the push onto the current
over bucket. -/
def appendToLast {α : Type} : List (List α) → α → List (List α)
  | [], _ => []
  | [o], e => [o ++ [e]]
  | o :: rest, e => o :: appendToLast rest e

-- ============ Pure helpers of the service ============

def isLegalDelivery (extraType : ExtraType) (config : MatchConfig) : Bool :=
  if extraType = ExtraType.wide ∧ config.wideRedelivery then false
  else if extraType = ExtraType.noBall ∧ config.noBallRedelivery then false
  else extraType ≠ ExtraType.wide ∧ extraType ≠ ExtraType.noBall

def isWicketCreditedToBowler (wicketType : Option WicketType) : Bool :=
  match wicketType with
  | Option.none => false
  | some t =>
      t = WicketType.bowled ∨ t = WicketType.caught ∨ t = WicketType.lbw ∨
      t = WicketType.stumped ∨ t = WicketType.hitWicket

def isMaidenOver (overEvents : List BallEvent) : Bool :=
  overEvents.all fun e =>
    e.payload.runsScored = 0 ∧
    e.payload.extras.type ≠ ExtraType.wide ∧
    e.payload.extras.type ≠ ExtraType.noBall

def updateExtras (innings : InningsState) (extras : BallExtras) : InningsState :=
  let t := { innings.extras with total := innings.extras.total + extras.runs }
  let t :=
    match extras.type with
    | ExtraType.wide => { t with wides := t.wides + extras.runs }
    | ExtraType.noBall => { t with noBalls := t.noBalls + extras.runs }
    | ExtraType.bye => { t with byes := t.byes + extras.runs }
    | ExtraType.legBye => { t with legByes := t.legByes + extras.runs }
    | ExtraType.penalty => { t with penalties := t.penalties + extras.runs }
    | ExtraType.none => t
  { innings with extras := t }

def createBatsmanStats (playerId : String) : BatsmanStats :=
  { playerId := playerId, runs := 0, ballsFaced := 0, fours := 0, sixes := 0,
    strikeRate := 0, isOut := false, dismissalType := Option.none,
    dismissedBy := Option.none, fielder := Option.none }

def createBowlerStats (playerId : String) : BowlerStats :=
  { playerId := playerId, overs := 0, balls := 0, maidens := 0,
    runsConceded := 0, wickets := 0, economyRate := 0, wides := 0,
    noBalls := 0, dotBalls := 0 }

-- ============ Partnership helpers (find the active one, mutate it) ============

/-- The partnerships.find(p => p.isActive) object mutated by the run and
ball accumulation: rewrite the first active partnership in place. -/
def updateFirstActive (f : Partnership → Partnership) :
    List Partnership → List Partnership
  | [] => []
  | p :: rest =>
      if p.isActive then f p :: rest else p :: updateFirstActive f rest

-- ============ handleWicket ============

/-- handleWicket of the service: increments wickets, marks the dismissed
batsman out, credits the bowler when applicable, appends a FallOfWicket,
closes the active partnership, and emits a wicket commentary trigger. -/
def handleWicket (innings : InningsState) (event : BallEvent) :
    InningsState × List Trigger :=
  let payload := event.payload
  let actors := event.actors
  let dismissedPlayerId := jsOrElse payload.wicket.dismissedPlayer actors.batsmanOnStrike
  let i := { innings with wickets := innings.wickets + 1 }
  let i := { i with
    batsmanStats := updateA i.batsmanStats dismissedPlayerId fun bs =>
      { bs with
        isOut := true
        dismissalType := payload.wicket.type
        dismissedBy := some actors.bowler
        fielder := payload.wicket.fielder } }
  let i :=
    if isWicketCreditedToBowler payload.wicket.type then
      { i with
        bowlerStats := updateA i.bowlerStats actors.bowler fun s =>
          { s with wickets := s.wickets + 1 } }
    else i
  let i := { i with
    fallOfWickets := i.fallOfWickets ++
      [({ wicketNumber := i.wickets, score := i.totalRuns, overs := i.overs,
          balls := i.balls, dismissedPlayer := dismissedPlayerId,
          dismissalType := payload.wicket.type } : FallOfWicket)] }
  let i := { i with
    partnerships := updateFirstActive
      (fun p => { p with isActive := false, endScore := some i.totalRuns })
      i.partnerships }
  (i, [Trigger.wicket])

-- ============ handleStrikeRotation ============

/-- handleStrikeRotation of the service.  The odd-run total adds the extras
runs only for byes and leg byes; the percent operator of JS truncates
toward zero, hence Int.tmod. -/
def handleStrikeRotation (innings : InningsState) (event : BallEvent)
    (config : MatchConfig) : InningsState :=
  let payload := event.payload
  let isLegal := isLegalDelivery payload.extras.type config
  let totalRuns : Int := payload.runsScored +
    (if payload.extras.type = ExtraType.bye ∨ payload.extras.type = ExtraType.legBye
     then payload.extras.runs else 0)
  let shouldSwap : Bool := Int.tmod totalRuns 2 = 1
  let isEndOfOver : Bool := isLegal ∧ innings.balls = 0 ∧ innings.overs > 0
  if shouldSwap ≠ isEndOfOver then
    if shouldSwap ∨ isEndOfOver then
      { innings with
        batsmanOnStrike := innings.batsmanNonStrike
        batsmanNonStrike := innings.batsmanOnStrike }
    else innings
  else innings

-- ============ applyBallToInnings, block by block ============

/-- Run accounting block: total runs and the extras tallies. -/
def stepRunsAndExtras (innings : InningsState) (event : BallEvent) : InningsState :=
  let payload := event.payload
  let totalRuns : Int := payload.runsScored +
    (if payload.extras.type ≠ ExtraType.none then payload.extras.runs else 0)
  let i := if payload.extras.type ≠ ExtraType.none then updateExtras innings payload.extras else innings
  { i with totalRuns := i.totalRuns + totalRuns }

/-- Batsman statistics block. -/
def stepBatsmanStats (innings : InningsState) (event : BallEvent)
    (isLegal : Bool) : InningsState :=
  let payload := event.payload
  { innings with
    batsmanStats := updateA innings.batsmanStats event.actors.batsmanOnStrike fun bs =>
      let bs :=
        if payload.extras.type ≠ ExtraType.bye ∧ payload.extras.type ≠ ExtraType.legBye
        then { bs with runs := bs.runs + payload.runsScored } else bs
      let bs :=
        if isLegal ∨ payload.extras.type = ExtraType.noBall
        then { bs with ballsFaced := bs.ballsFaced + 1 } else bs
      let bs := if payload.isBoundary ∧ ¬payload.isSix then { bs with fours := bs.fours + 1 } else bs
      let bs := if payload.isSix then { bs with sixes := bs.sixes + 1 } else bs
      { bs with
        strikeRate :=
          if bs.ballsFaced > 0 then ((bs.runs : Rat) / (bs.ballsFaced : Rat)) * 100 else 0 } }

/-- Bowler statistics block (ball count with six-ball rollover, runs
conceded, wides, no balls, dot balls, economy rate). -/
def stepBowlerStats (innings : InningsState) (event : BallEvent)
    (isLegal : Bool) : InningsState :=
  let payload := event.payload
  { innings with
    bowlerStats := updateA innings.bowlerStats event.actors.bowler fun s =>
      let s :=
        if isLegal then
          let s := { s with balls := s.balls + 1 }
          if s.balls = 6 then { s with overs := s.overs + 1, balls := 0 } else s
        else s
      let s :=
        if payload.extras.type ≠ ExtraType.bye ∧ payload.extras.type ≠ ExtraType.legBye
        then { s with runsConceded := s.runsConceded + payload.runsScored } else s
      let s :=
        if payload.extras.type = ExtraType.wide
        then { s with runsConceded := s.runsConceded + payload.extras.runs, wides := s.wides + 1 }
        else s
      let s :=
        if payload.extras.type = ExtraType.noBall
        then { s with runsConceded := s.runsConceded + payload.extras.runs, noBalls := s.noBalls + 1 }
        else s
      let s := if payload.isDotBall ∧ isLegal then { s with dotBalls := s.dotBalls + 1 } else s
      let totalOvers : Rat := (s.overs : Rat) + (s.balls : Rat) / 6
      { s with
        economyRate := if totalOvers > 0 then (s.runsConceded : Rat) / totalOvers else 0 } }

/-- Over bookkeeping block: on a legal delivery increment the innings ball
counter; on reaching 6 roll the over, start a new over bucket, and check the
overHistory entry at length - 2 for a maiden.  Note that the source pushes
the new bucket before the current event is appended to the history, so the
entry inspected here never contains the delivery that completed the over. -/
def stepOversAndMaiden (innings : InningsState) (event : BallEvent)
    (isLegal : Bool) : InningsState × List Trigger :=
  if isLegal then
    let i := { innings with balls := innings.balls + 1 }
    if i.balls = 6 then
      let i := { i with
        overs := i.overs + 1
        balls := 0
        overHistory := i.overHistory ++ [[]] }
      if containsA i.bowlerStats event.actors.bowler then
        match secondLast i.overHistory with
        | some lastOver =>
            if isMaidenOver lastOver then
              ({ i with
                 bowlerStats := updateA i.bowlerStats event.actors.bowler fun s =>
                   { s with maidens := s.maidens + 1 } },
               [Trigger.maidenOver])
            else (i, [])
        | Option.none => (i, [])
      else (i, [])
    else (i, [])
  else (innings, [])

/-- Partnership block: add the ball's total runs to the active partnership
and count the ball when legal. -/
def stepPartnership (innings : InningsState) (event : BallEvent)
    (isLegal : Bool) : InningsState :=
  let payload := event.payload
  let totalRuns : Int := payload.runsScored +
    (if payload.extras.type ≠ ExtraType.none then payload.extras.runs else 0)
  { innings with
    partnerships := updateFirstActive
      (fun p => { p with
        runs := p.runs + totalRuns
        balls := if isLegal then p.balls + 1 else p.balls })
      innings.partnerships }

/-- Derived-rate block: the innings run rate, and for a chase with a truthy
target the required runs, remaining balls and required run rate. -/
def stepRates (innings : InningsState) (config : MatchConfig) : InningsState :=
  let totalOvers : Rat := (innings.overs : Rat) + (innings.balls : Rat) / 6
  let i := { innings with
    runRate := if totalOvers > 0 then (innings.totalRuns : Rat) / totalOvers else 0 }
  match i.target with
  | some t =>
      if t ≠ 0 then
        let requiredRuns : Int := t - i.totalRuns
        let remainingBalls : Int :=
          (config.oversPerInnings : Int) * 6 - ((i.overs : Int) * 6 + (i.balls : Int))
        let i := { i with
          requiredRuns := some requiredRuns
          remainingBalls := some remainingBalls }
        if remainingBalls > 0 then
          { i with requiredRunRate := some ((requiredRuns : Rat) / (remainingBalls : Rat) * 6) }
        else i
      else i
  | Option.none => i

/-- applyBallToInnings of the service, composed of the blocks above in the
source order, returning the new innings state and the commentary triggers
the call emitted. -/
def applyBallToInnings (innings : InningsState) (event : BallEvent)
    (config : MatchConfig) : InningsState × List Trigger :=
  let isLegal := isLegalDelivery event.payload.extras.type config
  let i1 := stepRunsAndExtras innings event
  let i2 := stepBatsmanStats i1 event isLegal
  let i3 := stepBowlerStats i2 event isLegal
  let om := stepOversAndMaiden i3 event isLegal
  let i5 := { om.1 with overHistory := appendToLast om.1.overHistory event }
  let i6 := stepPartnership i5 event isLegal
  let hw := if event.payload.wicket.isWicket then handleWicket i6 event else (i6, [])
  let i8 := handleStrikeRotation hw.1 event config
  let i9 := stepRates i8 config
  (i9, om.2 ++ hw.2)

-- ============ Errors, DTOs ============

/-- One constructor per distinct BadRequestException thrown by the service. -/
inductive CricketError
  | tossOnlyPending
  | cannotStartInnings
  | matchNotActive
  | inningsNotInProgress
  | invalidStriker
  | invalidBowler
  | bowlerMaxOvers
  | invalidRuns
  | noActiveInnings
  | bowlerChangeMidOver
  | consecutiveOvers
  | noBallsToUndo
deriving DecidableEq, Repr

instance {ε α : Type} [DecidableEq ε] [DecidableEq α] : DecidableEq (Except ε α) :=
  fun x y =>
    match x, y with
    | Except.ok a, Except.ok b =>
        if h : a = b then Decidable.isTrue (by rw [h])
        else Decidable.isFalse (fun hh => h (Except.ok.inj hh))
    | Except.error a, Except.error b =>
        if h : a = b then Decidable.isTrue (by rw [h])
        else Decidable.isFalse (fun hh => h (Except.error.inj hh))
    | Except.ok _, Except.error _ => Decidable.isFalse (fun hh => Except.noConfusion hh)
    | Except.error _, Except.ok _ => Decidable.isFalse (fun hh => Except.noConfusion hh)

/-- CreateBallEventDto, restricted to the fields the service reads. -/
structure CreateBallEventDto where
  batsmanOnStrike : String
  batsmanNonStrike : String
  bowler : String
  runsScored : Int
  isBoundary : Bool
  isSix : Bool
  extras : BallExtras
  wicket : BallWicket
deriving DecidableEq, Repr

structure StartInningsDto where
  openingBatsman1 : String
  openingBatsman2 : String
  openingBowler : String
deriving DecidableEq, Repr

-- ============ Match lifecycle ============

/-- validateAndNormalizeConfig: a missing (or falsy 0) maxOversPerBowler
defaults to the ceiling of oversPerInnings / 5. -/
def validateAndNormalizeConfig (config : MatchConfigDto) : MatchConfig :=
  let defaultMax := (config.oversPerInnings + 4) / 5
  let maxOversPerBowler :=
    match config.maxOversPerBowler with
    | some v => if v ≠ 0 then v else defaultMax
    | Option.none => defaultMax
  { oversPerInnings := config.oversPerInnings
    playersPerSide := config.playersPerSide
    powerplayOvers := config.powerplayOvers
    maxOversPerBowler := maxOversPerBowler
    wideRedelivery := config.wideRedelivery
    noBallRedelivery := config.noBallRedelivery
    freeHitOnNoBall := config.freeHitOnNoBall
    superOverOnTie := config.superOverOnTie }

def createMatch (teamAId teamBId : String) (config : MatchConfigDto) : MatchState :=
  { config := validateAndNormalizeConfig config
    status := MatchStatus.pending
    teamAId := teamAId
    teamBId := teamBId
    tossWinner := Option.none
    tossDecision := Option.none
    currentInnings := 1
    innings1 := Option.none
    innings2 := Option.none
    result := Option.none
    winningTeam := Option.none
    events := []
    undoStack := []
    eventCounter := 0 }

def recordToss (m : MatchState) (tossWinner : String) (decision : TossDecision) :
    Except CricketError MatchState :=
  if m.status ≠ MatchStatus.pending then Except.error CricketError.tossOnlyPending
  else Except.ok { m with
    tossWinner := some tossWinner
    tossDecision := some decision
    status := MatchStatus.toss }

def determineBattingTeam (m : MatchState) (inningsNumber : Nat) : String :=
  if inningsNumber = 1 then
    if m.tossWinner = some m.teamAId then
      if m.tossDecision = some TossDecision.bat then m.teamAId else m.teamBId
    else
      if m.tossDecision = some TossDecision.bat then m.teamBId else m.teamAId
  else
    match m.innings1 with
    | some i1 => if i1.battingTeamId = m.teamAId then m.teamBId else m.teamAId
    | Option.none => m.teamAId

def getCurrentInnings (m : MatchState) : Option InningsState :=
  if m.currentInnings = 1 then m.innings1
  else if m.currentInnings = 2 then m.innings2
  else Option.none

/-- Write back the innings object mutated in place by the service. -/
def setCurrentInnings (m : MatchState) (i : InningsState) : MatchState :=
  if m.currentInnings = 1 then { m with innings1 := some i }
  else if m.currentInnings = 2 then { m with innings2 := some i }
  else m

def startInnings (m : MatchState) (dto : StartInningsDto) :
    Except CricketError MatchState :=
  if m.status ≠ MatchStatus.toss ∧ m.status ≠ MatchStatus.inningsBreak then
    Except.error CricketError.cannotStartInnings
  else
    let inningsNumber := if m.status = MatchStatus.toss then 1 else 2
    let battingTeamId := determineBattingTeam m inningsNumber
    let bowlingTeamId := if battingTeamId = m.teamAId then m.teamBId else m.teamAId
    let innings : InningsState :=
      { inningsNumber := inningsNumber
        battingTeamId := battingTeamId
        bowlingTeamId := bowlingTeamId
        status := InningsStatus.inProgress
        totalRuns := 0
        wickets := 0
        overs := 0
        balls := 0
        extras := { wides := 0, noBalls := 0, byes := 0, legByes := 0, penalties := 0, total := 0 }
        runRate := 0
        batsmanOnStrike := some dto.openingBatsman1
        batsmanNonStrike := some dto.openingBatsman2
        currentBowler := some dto.openingBowler
        batsmanStats :=
          insertA (insertA [] dto.openingBatsman1 (createBatsmanStats dto.openingBatsman1))
            dto.openingBatsman2 (createBatsmanStats dto.openingBatsman2)
        bowlerStats := insertA [] dto.openingBowler (createBowlerStats dto.openingBowler)
        partnerships :=
          [{ batsman1 := dto.openingBatsman1, batsman2 := dto.openingBatsman2,
             runs := 0, balls := 0, startScore := 0, endScore := Option.none,
             isActive := true }]
        fallOfWickets := []
        overHistory := [[]]
        target := Option.none
        requiredRunRate := Option.none
        requiredRuns := Option.none
        remainingBalls := Option.none }
    let innings :=
      if inningsNumber = 2 then
        match m.innings1 with
        | some i1 =>
            { innings with
              target := some (i1.totalRuns + 1)
              requiredRuns := some (i1.totalRuns + 1)
              remainingBalls := some ((m.config.oversPerInnings : Int) * 6) }
        | Option.none => innings
      else innings
    let m :=
      if inningsNumber = 1 then { m with innings1 := some innings }
      else { m with innings2 := some innings }
    Except.ok { m with
      currentInnings := inningsNumber
      status := MatchStatus.active }

-- ============ Validation ============

/-- validateBallEvent.  The out-of-range-runs branch tests the JS truthiness
of the extras type enum string: every declared ExtraType value, the string
"none" included, is a non-empty string, so the negation is always false. -/
def validateBallEvent (m : MatchState) (innings : InningsState)
    (dto : CreateBallEventDto) : Option CricketError :=
  if m.status ≠ MatchStatus.active then some CricketError.matchNotActive
  else if innings.status ≠ InningsStatus.inProgress then some CricketError.inningsNotInProgress
  else if some dto.batsmanOnStrike ≠ innings.batsmanOnStrike then some CricketError.invalidStriker
  else if some dto.bowler ≠ innings.currentBowler then some CricketError.invalidBowler
  else if (match lookupA innings.bowlerStats dto.bowler with
           | some s => decide (s.overs ≥ m.config.maxOversPerBowler)
           | Option.none => false) then some CricketError.bowlerMaxOvers
  else if dto.runsScored > 6 ∧ extraTypeStr dto.extras.type = "" then
    some CricketError.invalidRuns
  else Option.none

-- ============ Event creation ============

/-- createBallEvent, restricted to the id, actors, payload and soft-delete
flag; the period, context snapshot and meta block are write-only for every
function modelled here. -/
def createBallEvent (m : MatchState) (dto : CreateBallEventDto) : BallEvent :=
  let isDotBall : Bool :=
    dto.runsScored = 0 ∧ dto.extras.type = ExtraType.none ∧ ¬dto.wicket.isWicket
  { id := m.eventCounter
    actors :=
      { batsmanOnStrike := dto.batsmanOnStrike
        batsmanNonStrike := dto.batsmanNonStrike
        bowler := dto.bowler
        fielder := dto.wicket.fielder }
    payload :=
      { runsScored := dto.runsScored
        isBoundary := dto.isBoundary
        isSix := dto.isSix
        isDotBall := isDotBall
        extras := dto.extras
        wicket := dto.wicket }
    isDeleted := false }

-- ============ Innings and match completion ============

def isInningsComplete (innings : InningsState) (config : MatchConfig) : Bool :=
  if innings.wickets ≥ config.playersPerSide - 1 then true
  else if innings.overs ≥ config.oversPerInnings then true
  else
    match innings.target with
    | some t => t ≠ 0 ∧ innings.totalRuns ≥ t
    | Option.none => false

def endMatch (m : MatchState) : MatchState :=
  let m := { m with status := MatchStatus.completed }
  match m.innings1, m.innings2 with
  | some i1, some i2 =>
      if i2.totalRuns > i1.totalRuns then
        { m with
          result := some (if i2.battingTeamId = m.teamAId then MatchResult.teamAWon else MatchResult.teamBWon)
          winningTeam := some i2.battingTeamId }
      else if i1.totalRuns > i2.totalRuns then
        { m with
          result := some (if i1.battingTeamId = m.teamAId then MatchResult.teamAWon else MatchResult.teamBWon)
          winningTeam := some i1.battingTeamId }
      else
        { m with result := some MatchResult.tie }
  | _, _ => m

def endInnings (m : MatchState) : MatchState :=
  match getCurrentInnings m with
  | Option.none => m
  | some innings =>
      let innings := { innings with status := InningsStatus.completed }
      let m := setCurrentInnings m innings
      if innings.inningsNumber = 1 then { m with status := MatchStatus.inningsBreak }
      else endMatch m

-- ============ Milestones ============

structure PrevState where
  batsmanRuns : Int
  bowlerWickets : Nat
  totalScore : Int
  wickets : Nat
deriving DecidableEq, Repr

def captureState (innings : InningsState) : PrevState :=
  { batsmanRuns :=
      match innings.batsmanOnStrike with
      | some b => (match lookupA innings.batsmanStats b with
                   | some s => s.runs
                   | Option.none => 0)
      | Option.none => 0
    bowlerWickets :=
      match innings.currentBowler with
      | some b => (match lookupA innings.bowlerStats b with
                   | some s => s.wickets
                   | Option.none => 0)
      | Option.none => 0
    totalScore := innings.totalRuns
    wickets := innings.wickets }

/-- Array.prototype.indexOf on the event list; reference equality of the
event objects is modelled by value equality, which coincides with it on
lists of pairwise distinct events. -/
def idxOf (events : List BallEvent) (e : BallEvent) : Nat :=
  List.findIdx (fun x => x == e) events

/-- The inner loop of isHatTrick: for each consecutive pair among the
candidate wickets, no event strictly between them in the full log may be a
non-wide non-no-ball delivery by the same bowler. -/
def hatPairsOK (events : List BallEvent) (bowler : String) :
    List BallEvent → Bool
  | p :: c :: rest =>
      let prevIndex := idxOf events p
      let currIndex := idxOf events c
      let eventsBetween := jsSlice events (prevIndex + 1) currIndex
      let legalBallsBetween := eventsBetween.filter fun e =>
        e.actors.bowler = bowler ∧
        e.payload.extras.type ≠ ExtraType.wide ∧
        e.payload.extras.type ≠ ExtraType.noBall
      legalBallsBetween.length = 0 && hatPairsOK events bowler (c :: rest)
  | _ => true

def isHatTrick (events : List BallEvent) (currentEvent : BallEvent) : Bool :=
  if events.length < 2 then false
  else
    let lastThreeWickets :=
      (events.filter fun e =>
        e.payload.wicket.isWicket ∧ e.actors.bowler = currentEvent.actors.bowler).drop
        ((events.filter fun e =>
          e.payload.wicket.isWicket ∧ e.actors.bowler = currentEvent.actors.bowler).length - 3)
    if lastThreeWickets.length < 3 then false
    else hatPairsOK events currentEvent.actors.bowler lastThreeWickets

/-- checkTokenRewards: the reward records produced for one applied ball,
comparing the pre-ball snapshot with the post-ball statistics. -/
def checkTokenRewards (m : MatchState) (innings : InningsState)
    (event : BallEvent) (previousState : PrevState) : List TokenReward :=
  let batsmanRewards :=
    match lookupA innings.batsmanStats event.actors.batsmanOnStrike with
    | Option.none => []
    | some bs =>
        (if previousState.batsmanRuns < 50 ∧ bs.runs ≥ 50 then
          [({ tier := TokenTier.niftyFifty, playerId := event.actors.batsmanOnStrike,
              burnMultiplier := 1.5 } : TokenReward)]
         else []) ++
        (if previousState.batsmanRuns < 100 ∧ bs.runs ≥ 100 ∧ bs.strikeRate > 150 then
          [({ tier := TokenTier.gayleStorm, playerId := event.actors.batsmanOnStrike,
              burnMultiplier := 3.0 } : TokenReward)]
         else [])
  let bowlerRewards :=
    match lookupA innings.bowlerStats event.actors.bowler with
    | Option.none => []
    | some s =>
        if event.payload.wicket.isWicket then
          (if previousState.bowlerWickets = 4 ∧ s.wickets ≥ 5 then
            [({ tier := TokenTier.fiveWicketHaul, playerId := event.actors.bowler,
                burnMultiplier := 2.5 } : TokenReward)]
           else []) ++
          (if isHatTrick m.events event then
            [({ tier := TokenTier.hatTrick, playerId := event.actors.bowler,
                burnMultiplier := 3.0 } : TokenReward)]
           else [])
        else []
  batsmanRewards ++ bowlerRewards

-- ============ processBall ============

structure ProcessOutcome where
  matchState : MatchState
  event : BallEvent
  rewards : List TokenReward
  triggers : List Trigger
deriving DecidableEq, Repr

def processBall (m : MatchState) (dto : CreateBallEventDto) :
    Except CricketError ProcessOutcome :=
  match getCurrentInnings m with
  | Option.none => Except.error CricketError.noActiveInnings
  | some innings =>
      match validateBallEvent m innings dto with
      | some e => Except.error e
      | Option.none =>
          let event := createBallEvent m dto
          let previousState := captureState innings
          let (innings2, triggers) := applyBallToInnings innings event m.config
          let m2 := setCurrentInnings m innings2
          let m3 := if isInningsComplete innings2 m.config then endInnings m2 else m2
          let m4 := { m3 with
            events := m3.events ++ [event]
            undoStack := m3.undoStack ++ [event]
            eventCounter := m3.eventCounter + 1 }
          let inningsAfter := (getCurrentInnings m4).getD innings2
          let rewards := checkTokenRewards m4 inningsAfter event previousState
          Except.ok { matchState := m4, event := event, rewards := rewards, triggers := triggers }

-- ============ changeBowler, bringNewBatsman, undoLastBall ============

def changeBowler (m : MatchState) (newBowler : String) :
    Except CricketError MatchState :=
  match getCurrentInnings m with
  | Option.none => Except.error CricketError.noActiveInnings
  | some innings =>
      if innings.balls ≠ 0 then Except.error CricketError.bowlerChangeMidOver
      else if innings.currentBowler = some newBowler then
        Except.error CricketError.consecutiveOvers
      else
        match lookupA innings.bowlerStats newBowler with
        | some s =>
            if s.overs ≥ m.config.maxOversPerBowler then
              Except.error CricketError.bowlerMaxOvers
            else
              Except.ok (setCurrentInnings m { innings with currentBowler := some newBowler })
        | Option.none =>
            let innings := { innings with
              bowlerStats := insertA innings.bowlerStats newBowler (createBowlerStats newBowler) }
            Except.ok (setCurrentInnings m { innings with currentBowler := some newBowler })

def bringNewBatsman (m : MatchState) (newBatsmanId : String) (isOnStrike : Bool) :
    Except CricketError MatchState :=
  match getCurrentInnings m with
  | Option.none => Except.error CricketError.noActiveInnings
  | some innings =>
      let innings :=
        if containsA innings.batsmanStats newBatsmanId then innings
        else { innings with
          batsmanStats := insertA innings.batsmanStats newBatsmanId (createBatsmanStats newBatsmanId) }
      let innings :=
        if isOnStrike then { innings with batsmanOnStrike := some newBatsmanId }
        else { innings with batsmanNonStrike := some newBatsmanId }
      let otherBatsman :=
        if isOnStrike then innings.batsmanNonStrike else innings.batsmanOnStrike
      let innings := { innings with
        partnerships := innings.partnerships ++
          [({ batsman1 := newBatsmanId, batsman2 := otherBatsman.getD "",
              runs := 0, balls := 0, startScore := innings.totalRuns,
              endScore := Option.none, isActive := true } : Partnership)] }
      Except.ok (setCurrentInnings m innings)

/-- undoLastBall of the service: pops the undo stack, soft-deletes the popped
event, splices it out of the match event list, and leaves every innings
aggregate untouched (the source carries a comment conceding that a full
implementation would replay the remaining events to rebuild the state). -/
def undoLastBall (m : MatchState) : Except CricketError MatchState :=
  match m.undoStack.getLast? with
  | Option.none => Except.error CricketError.noBallsToUndo
  | some lastEvent =>
      let eventIndex := List.findIdx (fun e => e.id == lastEvent.id) m.events
      let events :=
        if eventIndex < m.events.length then
          m.events.take eventIndex ++ m.events.drop (eventIndex + 1)
        else m.events
      match getCurrentInnings m with
      | Option.none => Except.error CricketError.noActiveInnings
      | some _ =>
          Except.ok { m with undoStack := m.undoStack.dropLast, events := events }

-- ============ Sequencing and observation helpers ============

/-- Process a list of deliveries in order, collecting every commentary
trigger emitted along the way. -/
def processAll (m : MatchState) : List CreateBallEventDto →
    Except CricketError (MatchState × List Trigger)
  | [] => Except.ok (m, [])
  | dto :: rest =>
      match processBall m dto with
      | Except.ok out =>
          (match processAll out.matchState rest with
           | Except.ok (mr, ts) => Except.ok (mr, out.triggers ++ ts)
           | Except.error e => Except.error e)
      | Except.error e => Except.error e

def okOr (r : Except CricketError MatchState) (d : MatchState) : MatchState :=
  match r with
  | Except.ok m => m
  | Except.error _ => d

def activeCount (i : InningsState) : Nat :=
  (i.partnerships.filter fun p => p.isActive).length

def countTier (rs : List TokenReward) (t : TokenTier) : Nat :=
  (rs.filter fun r => r.tier = t).length

def countTrigger (ts : List Trigger) (t : Trigger) : Nat :=
  (ts.filter fun x => x = t).length

def wicketsOfBowler (i : InningsState) (b : String) : Option Nat :=
  (lookupA i.bowlerStats b).map fun s => s.wickets

def maidensOfBowler (i : InningsState) (b : String) : Option Nat :=
  (lookupA i.bowlerStats b).map fun s => s.maidens

def totalRunsOfCurrent (m : MatchState) : Option Int :=
  (getCurrentInnings m).map fun i => i.totalRuns

def strikerOfCurrent (m : MatchState) : Option (Option String) :=
  (getCurrentInnings m).map fun i => i.batsmanOnStrike

def activeCountOfCurrent (m : MatchState) : Option Nat :=
  (getCurrentInnings m).map activeCount

def statusOfCurrent (m : MatchState) : Option InningsStatus :=
  (getCurrentInnings m).map fun i => i.status

/-- Replace the wicket type carried by an event's payload. -/
def withWicketType (e : BallEvent) (t : Option WicketType) : BallEvent :=
  { e with payload := { e.payload with wicket := { e.payload.wicket with type := t } } }

/-- The amount a delivery adds to innings.totalRuns in the source: the runs
off the bat, plus the extras runs only when the extra type is not none. -/
def runContribution (e : BallEvent) : Int :=
  e.payload.runsScored +
    (if e.payload.extras.type ≠ ExtraType.none then e.payload.extras.runs else 0)

def dtoRunContribution (dto : CreateBallEventDto) : Int :=
  dto.runsScored +
    (if dto.extras.type ≠ ExtraType.none then dto.extras.runs else 0)

/-- Sum of the source's per-delivery contributions over the non-deleted
events. -/
def codeDeliverySum (events : List BallEvent) : Int :=
  ((events.filter fun e => !e.isDeleted).map runContribution).sum

-- ============ Claim-side definitions, written from the spec's words ============

/-- Claim C2's legality rule: a delivery is illegal exactly when its extra
type is wide or no-ball and the corresponding redelivery toggle is enabled;
with the toggle disabled the ball counts as legal. -/
def claimIsLegalDelivery (t : ExtraType) (config : MatchConfig) : Bool :=
  ¬((t = ExtraType.wide ∧ config.wideRedelivery) ∨
    (t = ExtraType.noBall ∧ config.noBallRedelivery))

/-- Claim C3's odd-run test: the run-accounting total (runs off bat plus
extras runs whenever an extra type is present) is odd. -/
def claimOddRuns (p : BallPayload) : Bool :=
  Int.tmod (p.runsScored +
    (if p.extras.type = ExtraType.none then 0 else p.extras.runs)) 2 = 1

/-- The odd-run total the source actually uses for strike rotation: extras
runs are added only for byes and leg byes. -/
def codeOddRuns (p : BallPayload) : Bool :=
  Int.tmod (p.runsScored +
    (if p.extras.type = ExtraType.bye ∨ p.extras.type = ExtraType.legBye
     then p.extras.runs else 0)) 2 = 1

/-- Claim C8's per-delivery contribution: runs off bat plus extras runs,
unconditionally. -/
def claimDeliverySum (events : List BallEvent) : Int :=
  ((events.filter fun e => !e.isDeleted).map fun e =>
    e.payload.runsScored + e.payload.extras.runs).sum

/-- A delivery carrying a dismissal bowled by the given bowler (the wicket
filter of the hat-trick detector). -/
def wicketBy (b : String) (e : BallEvent) : Bool :=
  e.payload.wicket.isWicket ∧ e.actors.bowler = b

/-- A delivery by the given bowler that is neither a wide nor a no-ball
(the intervening-delivery filter of the hat-trick detector). -/
def legalBy (b : String) (e : BallEvent) : Bool :=
  e.actors.bowler = b ∧
  e.payload.extras.type ≠ ExtraType.wide ∧
  e.payload.extras.type ≠ ExtraType.noBall

/-- Claim C5's hat-trick condition: the event log splits around the last
three wicket-deliveries of the bowler (no later wicket of theirs exists),
and between the consecutive pairs of those three no legal delivery by the
same bowler intervenes. -/
def specHatTrick (events : List BallEvent) (b : String) : Prop :=
  ∃ (A B C D : List BallEvent) (p q r : BallEvent),
    events = A ++ (p :: (B ++ (q :: (C ++ (r :: D))))) ∧
    wicketBy b p = true ∧ wicketBy b q = true ∧ wicketBy b r = true ∧
    (∀ e ∈ B, wicketBy b e = false) ∧
    (∀ e ∈ C, wicketBy b e = false) ∧
    (∀ e ∈ D, wicketBy b e = false) ∧
    (∀ e ∈ B, legalBy b e = false) ∧
    (∀ e ∈ C, legalBy b e = false)

-- ============ Concrete scenario fixtures ============

def stdConfigDto : MatchConfigDto :=
  { oversPerInnings := 20, playersPerSide := 11, powerplayOvers := [],
    maxOversPerBowler := Option.none, wideRedelivery := true,
    noBallRedelivery := true, freeHitOnNoBall := true, superOverOnTie := false }

def preTossMatch : MatchState := createMatch "A" "B" stdConfigDto

def tossedMatch : MatchState :=
  okOr (recordToss preTossMatch "A" TossDecision.bat) preTossMatch

def startDto : StartInningsDto :=
  { openingBatsman1 := "b1", openingBatsman2 := "b2", openingBowler := "bw" }

/-- A freshly started first innings: openers b1 and b2, opening bowler bw. -/
def startedMatch : MatchState :=
  okOr (startInnings tossedMatch startDto) tossedMatch

def noExtras : BallExtras := { type := ExtraType.none, runs := 0 }

def noWicket : BallWicket :=
  { isWicket := false, type := Option.none,
    dismissedPlayer := Option.none, fielder := Option.none }

def dotDto : CreateBallEventDto :=
  { batsmanOnStrike := "b1", batsmanNonStrike := "b2", bowler := "bw",
    runsScored := 0, isBoundary := false, isSix := false,
    extras := noExtras, wicket := noWicket }

def fourDto : CreateBallEventDto := { dotDto with runsScored := 4, isBoundary := true }

def oneRunDto : CreateBallEventDto := { dotDto with runsScored := 1 }

def sevenRunDto : CreateBallEventDto := { dotDto with runsScored := 7 }

def wideOneDto : CreateBallEventDto :=
  { dotDto with extras := { type := ExtraType.wide, runs := 1 } }

def noneOneDto : CreateBallEventDto :=
  { dotDto with extras := { type := ExtraType.none, runs := 1 } }

def bowledDto : CreateBallEventDto :=
  { dotDto with wicket := { isWicket := true, type := some WicketType.bowled,
                            dismissedPlayer := Option.none, fielder := Option.none } }

/-- The configuration of claim C2's edge case: both redelivery toggles
disabled. -/
def cfgTogglesOff : MatchConfig :=
  { oversPerInnings := 20, playersPerSide := 11, powerplayOvers := [],
    maxOversPerBowler := 4, wideRedelivery := false, noBallRedelivery := false,
    freeHitOnNoBall := true, superOverOnTie := false }

/-- Event fixture used for the hat-trick and wicket-handling witnesses. -/
def mkFixtureEvent (i : Nat) (bowler : String) (w : Bool) (t : ExtraType) : BallEvent :=
  { id := i,
    actors := { batsmanOnStrike := "s", batsmanNonStrike := "n",
                bowler := bowler, fielder := Option.none },
    payload := { runsScored := 0, isBoundary := false, isSix := false,
                 isDotBall := !w,
                 extras := { type := t, runs := 0 },
                 wicket := { isWicket := w,
                             type := if w then some WicketType.bowled else Option.none,
                             dismissedPlayer := Option.none, fielder := Option.none } },
    isDeleted := false }

/-- Wickets on the first two balls of an over by bowler x, an intervening
over by bowler y, then a wicket on x's next ball: the spanning hat-trick
scenario. -/
def hatEvents : List BallEvent :=
  [mkFixtureEvent 0 "x" true ExtraType.none,
   mkFixtureEvent 1 "x" true ExtraType.none,
   mkFixtureEvent 2 "y" false ExtraType.none,
   mkFixtureEvent 3 "y" false ExtraType.none,
   mkFixtureEvent 4 "x" true ExtraType.none]

def hatCurrent : BallEvent := mkFixtureEvent 4 "x" true ExtraType.none

/-- Fallback value for partial lookups on the concrete fixtures. -/
def fallbackInnings : InningsState :=
  { inningsNumber := 1, battingTeamId := "", bowlingTeamId := "",
    status := InningsStatus.notStarted, totalRuns := 0, wickets := 0, overs := 0,
    balls := 0,
    extras := { wides := 0, noBalls := 0, byes := 0, legByes := 0, penalties := 0, total := 0 },
    runRate := 0, batsmanOnStrike := Option.none, batsmanNonStrike := Option.none,
    currentBowler := Option.none, batsmanStats := [], bowlerStats := [],
    partnerships := [], fallOfWickets := [], overHistory := [],
    target := Option.none, requiredRunRate := Option.none,
    requiredRuns := Option.none, remainingBalls := Option.none }

def startedInnings : InningsState :=
  match getCurrentInnings startedMatch with
  | some i => i
  | Option.none => fallbackInnings

def c1Applied : MatchState :=
  match processBall startedMatch oneRunDto with
  | Except.ok out => out.matchState
  | Except.error _ => startedMatch

def c1Undone : MatchState := okOr (undoLastBall c1Applied) c1Applied

def c3Event : BallEvent := createBallEvent startedMatch wideOneDto

def c4Result : Option (MatchState × List Trigger) :=
  match processAll startedMatch (List.replicate 5 dotDto ++ [fourDto]) with
  | Except.ok r => some r
  | Except.error _ => Option.none

def c7Result : Option MatchState :=
  match processBall startedMatch sevenRunDto with
  | Except.ok out => some out.matchState
  | Except.error _ => Option.none

def c8cResult : Option MatchState :=
  match processBall startedMatch noneOneDto with
  | Except.ok out => some out.matchState
  | Except.error _ => Option.none

def c8Dtos : List CreateBallEventDto := [dotDto, fourDto, wideOneDto]

def c8Run : Except CricketError (MatchState × List Trigger) :=
  processAll startedMatch c8Dtos

def c8Final : MatchState :=
  match c8Run with
  | Except.ok (m, _) => m
  | Except.error _ => startedMatch

def c8Ts : List Trigger :=
  match c8Run with
  | Except.ok (_, ts) => ts
  | Except.error _ => []

def c9AfterWicketM : MatchState :=
  match processBall startedMatch bowledDto with
  | Except.ok out => out.matchState
  | Except.error _ => startedMatch

def c9NewBatsman : MatchState :=
  okOr (bringNewBatsman c9AfterWicketM "b3" true) c9AfterWicketM

def c9Bowler : MatchState := okOr (changeBowler startedMatch "bw2") startedMatch

def c10Event : BallEvent := createBallEvent startedMatch bowledDto

-- ============================================================
-- Theorems.  First a toolbox of lemmas about the association
-- list, the partnership rewriting, the list machinery of the
-- hat-trick detector, and the field projections of the
-- pipeline blocks; then the claims.
-- ============================================================

-- ===== Association list lemmas =====

theorem lookupA_updateA {α : Type} (m : List (String × α)) (k j : String) (f : α → α) :
    lookupA (updateA m k f) j =
      if k = j then (lookupA m j).map f else lookupA m j := by
  induction m with
  | nil => simp [updateA, lookupA]
  | cons hd tl ih =>
      obtain ⟨k', v'⟩ := hd
      by_cases hk : k' = k
      · subst hk
        by_cases hj : k' = j <;> simp [updateA, lookupA, hj]
      · by_cases hj : k' = j
        · subst hj
          have hkj : ¬k = k' := fun h => hk h.symm
          simp [updateA, lookupA, hk, hkj]
        · simp [updateA, lookupA, hk, hj, ih]

theorem lookupA_updateA_map {α β : Type} (m : List (String × α)) (k j : String)
    (f : α → α) (g : α → β) (hfg : ∀ v, g (f v) = g v) :
    (lookupA (updateA m k f) j).map g = (lookupA m j).map g := by
  rw [lookupA_updateA]
  by_cases h : k = j
  · simp [h, Option.map_map]
    cases lookupA m j with
    | none => rfl
    | some v => simp [Function.comp, hfg]
  · simp [h]

-- ===== Active partnership counting =====

theorem activeCount_updateFirstActive_preserve (f : Partnership → Partnership)
    (hf : ∀ p, (f p).isActive = p.isActive) (ps : List Partnership) :
    ((updateFirstActive f ps).filter fun p => p.isActive).length =
      (ps.filter fun p => p.isActive).length := by
  induction ps with
  | nil => rfl
  | cons p rest ih =>
      by_cases hp : p.isActive
      · simp [updateFirstActive, hp, hf]
      · simp [updateFirstActive, hp, ih]

theorem activeCount_updateFirstActive_close (f : Partnership → Partnership)
    (hf : ∀ p, (f p).isActive = false) (ps : List Partnership) :
    ((updateFirstActive f ps).filter fun p => p.isActive).length =
      (ps.filter fun p => p.isActive).length - 1 := by
  induction ps with
  | nil => rfl
  | cons p rest ih =>
      by_cases hp : p.isActive
      · simp [updateFirstActive, hp, hf]
      · simp [updateFirstActive, hp, ih]

-- ===== List lemmas for the hat-trick detector =====

theorem filter_decomp {α : Type} (f : α → Bool) (l : List α) :
    ∀ (t rest : List α) (p : α), l.filter f = t ++ p :: rest →
      ∃ X Y, l = X ++ p :: Y ∧ X.filter f = t ∧ Y.filter f = rest := by
  induction l with
  | nil =>
      intro t rest p h
      simp at h
  | cons a tl ih =>
      intro t rest p h
      by_cases hfa : f a
      · rw [List.filter_cons_of_pos hfa] at h
        cases t with
        | nil =>
            simp at h
            obtain ⟨hap, hrest⟩ := h
            exact ⟨[], tl, by simp [hap], rfl, hrest⟩
        | cons b t' =>
            simp at h
            obtain ⟨hab, hrest⟩ := h
            obtain ⟨X, Y, hl, hX, hY⟩ := ih t' rest p hrest
            exact ⟨a :: X, Y, by simp [hl],
              by rw [List.filter_cons_of_pos hfa, hX, hab], hY⟩
      · rw [List.filter_cons_of_neg hfa] at h
        obtain ⟨X, Y, hl, hX, hY⟩ := ih t rest p h
        exact ⟨a :: X, Y, by simp [hl],
          by rw [List.filter_cons_of_neg hfa, hX], hY⟩

theorem idxOf_append_cons (X Y : List BallEvent) (p : BallEvent) (hp : p ∉ X) :
    idxOf (X ++ p :: Y) p = X.length := by
  induction X with
  | nil => simp [idxOf, List.findIdx_cons]
  | cons a X' ih =>
      have hap : ¬(a == p) = true := by
        simp only [beq_iff_eq]
        intro h
        exact hp (by simp [h])
      have hp' : p ∉ X' := fun h => hp (List.mem_cons_of_mem _ h)
      simp only [List.cons_append, idxOf, List.findIdx_cons]
      rw [Bool.cond_eq_if]
      simp only [hap, if_false]
      have := ih hp'
      simp only [idxOf] at this
      simp [this]

theorem idxOf_middle (L R : List BallEvent) (p : BallEvent)
    (h : (L ++ p :: R).Nodup) : idxOf (L ++ p :: R) p = L.length := by
  apply idxOf_append_cons
  rw [List.nodup_middle, List.nodup_cons] at h
  intro hmem
  exact h.1 (List.mem_append_left _ hmem)

theorem jsSlice_middle {α : Type} (X B Z : List α) :
    jsSlice (X ++ B ++ Z) X.length (X.length + B.length) = B := by
  unfold jsSlice
  rw [List.append_assoc, List.take_append, List.take_left, List.drop_left]

-- ===== Projection lemmas for the pipeline blocks =====

@[simp] theorem stepRunsAndExtras_striker (i : InningsState) (e : BallEvent) :
    (stepRunsAndExtras i e).batsmanOnStrike = i.batsmanOnStrike := by
  by_cases hc : e.payload.extras.type ≠ ExtraType.none <;>
    simp [stepRunsAndExtras, updateExtras, hc]

@[simp] theorem stepRunsAndExtras_nonStriker (i : InningsState) (e : BallEvent) :
    (stepRunsAndExtras i e).batsmanNonStrike = i.batsmanNonStrike := by
  by_cases hc : e.payload.extras.type ≠ ExtraType.none <;>
    simp [stepRunsAndExtras, updateExtras, hc]

@[simp] theorem stepRunsAndExtras_balls (i : InningsState) (e : BallEvent) :
    (stepRunsAndExtras i e).balls = i.balls := by
  by_cases hc : e.payload.extras.type ≠ ExtraType.none <;>
    simp [stepRunsAndExtras, updateExtras, hc]

@[simp] theorem stepRunsAndExtras_overs (i : InningsState) (e : BallEvent) :
    (stepRunsAndExtras i e).overs = i.overs := by
  by_cases hc : e.payload.extras.type ≠ ExtraType.none <;>
    simp [stepRunsAndExtras, updateExtras, hc]

@[simp] theorem stepRunsAndExtras_partnerships (i : InningsState) (e : BallEvent) :
    (stepRunsAndExtras i e).partnerships = i.partnerships := by
  by_cases hc : e.payload.extras.type ≠ ExtraType.none <;>
    simp [stepRunsAndExtras, updateExtras, hc]

@[simp] theorem stepRunsAndExtras_bowlerStats (i : InningsState) (e : BallEvent) :
    (stepRunsAndExtras i e).bowlerStats = i.bowlerStats := by
  by_cases hc : e.payload.extras.type ≠ ExtraType.none <;>
    simp [stepRunsAndExtras, updateExtras, hc]

@[simp] theorem stepRunsAndExtras_status (i : InningsState) (e : BallEvent) :
    (stepRunsAndExtras i e).status = i.status := by
  by_cases hc : e.payload.extras.type ≠ ExtraType.none <;>
    simp [stepRunsAndExtras, updateExtras, hc]

@[simp] theorem stepRunsAndExtras_totalRuns (i : InningsState) (e : BallEvent) :
    (stepRunsAndExtras i e).totalRuns = i.totalRuns + runContribution e := by
  by_cases hc : e.payload.extras.type ≠ ExtraType.none <;>
    simp [stepRunsAndExtras, updateExtras, runContribution, hc]

@[simp] theorem stepBatsmanStats_striker (i : InningsState) (e : BallEvent) (l : Bool) :
    (stepBatsmanStats i e l).batsmanOnStrike = i.batsmanOnStrike := by
  simp [stepBatsmanStats]

@[simp] theorem stepBatsmanStats_nonStriker (i : InningsState) (e : BallEvent) (l : Bool) :
    (stepBatsmanStats i e l).batsmanNonStrike = i.batsmanNonStrike := by
  simp [stepBatsmanStats]

@[simp] theorem stepBatsmanStats_balls (i : InningsState) (e : BallEvent) (l : Bool) :
    (stepBatsmanStats i e l).balls = i.balls := by
  simp [stepBatsmanStats]

@[simp] theorem stepBatsmanStats_overs (i : InningsState) (e : BallEvent) (l : Bool) :
    (stepBatsmanStats i e l).overs = i.overs := by
  simp [stepBatsmanStats]

@[simp] theorem stepBatsmanStats_partnerships (i : InningsState) (e : BallEvent) (l : Bool) :
    (stepBatsmanStats i e l).partnerships = i.partnerships := by
  simp [stepBatsmanStats]

@[simp] theorem stepBatsmanStats_bowlerStats (i : InningsState) (e : BallEvent) (l : Bool) :
    (stepBatsmanStats i e l).bowlerStats = i.bowlerStats := by
  simp [stepBatsmanStats]

@[simp] theorem stepBatsmanStats_totalRuns (i : InningsState) (e : BallEvent) (l : Bool) :
    (stepBatsmanStats i e l).totalRuns = i.totalRuns := by
  simp [stepBatsmanStats]

@[simp] theorem stepBatsmanStats_status (i : InningsState) (e : BallEvent) (l : Bool) :
    (stepBatsmanStats i e l).status = i.status := by
  simp [stepBatsmanStats]

@[simp] theorem stepBowlerStats_striker (i : InningsState) (e : BallEvent) (l : Bool) :
    (stepBowlerStats i e l).batsmanOnStrike = i.batsmanOnStrike := by
  simp [stepBowlerStats]

@[simp] theorem stepBowlerStats_nonStriker (i : InningsState) (e : BallEvent) (l : Bool) :
    (stepBowlerStats i e l).batsmanNonStrike = i.batsmanNonStrike := by
  simp [stepBowlerStats]

@[simp] theorem stepBowlerStats_balls (i : InningsState) (e : BallEvent) (l : Bool) :
    (stepBowlerStats i e l).balls = i.balls := by
  simp [stepBowlerStats]

@[simp] theorem stepBowlerStats_overs (i : InningsState) (e : BallEvent) (l : Bool) :
    (stepBowlerStats i e l).overs = i.overs := by
  simp [stepBowlerStats]

@[simp] theorem stepBowlerStats_partnerships (i : InningsState) (e : BallEvent) (l : Bool) :
    (stepBowlerStats i e l).partnerships = i.partnerships := by
  simp [stepBowlerStats]

@[simp] theorem stepBowlerStats_totalRuns (i : InningsState) (e : BallEvent) (l : Bool) :
    (stepBowlerStats i e l).totalRuns = i.totalRuns := by
  simp [stepBowlerStats]

@[simp] theorem stepBowlerStats_status (i : InningsState) (e : BallEvent) (l : Bool) :
    (stepBowlerStats i e l).status = i.status := by
  simp [stepBowlerStats]

@[simp] theorem stepBowlerStats_wickets (i : InningsState) (e : BallEvent) (l : Bool)
    (b : String) :
    wicketsOfBowler (stepBowlerStats i e l) b = wicketsOfBowler i b := by
  unfold stepBowlerStats wicketsOfBowler
  simp only
  apply lookupA_updateA_map
  intro v
  dsimp only
  repeat' split
  all_goals rfl

@[simp] theorem stepOvers_striker (i : InningsState) (e : BallEvent) (l : Bool) :
    ((stepOversAndMaiden i e l).1).batsmanOnStrike = i.batsmanOnStrike := by
  unfold stepOversAndMaiden
  dsimp only
  repeat' split
  all_goals simp

@[simp] theorem stepOvers_nonStriker (i : InningsState) (e : BallEvent) (l : Bool) :
    ((stepOversAndMaiden i e l).1).batsmanNonStrike = i.batsmanNonStrike := by
  unfold stepOversAndMaiden
  dsimp only
  repeat' split
  all_goals simp

@[simp] theorem stepOvers_partnerships (i : InningsState) (e : BallEvent) (l : Bool) :
    ((stepOversAndMaiden i e l).1).partnerships = i.partnerships := by
  unfold stepOversAndMaiden
  dsimp only
  repeat' split
  all_goals simp

@[simp] theorem stepOvers_totalRuns (i : InningsState) (e : BallEvent) (l : Bool) :
    ((stepOversAndMaiden i e l).1).totalRuns = i.totalRuns := by
  unfold stepOversAndMaiden
  dsimp only
  repeat' split
  all_goals simp

@[simp] theorem stepOvers_status (i : InningsState) (e : BallEvent) (l : Bool) :
    ((stepOversAndMaiden i e l).1).status = i.status := by
  unfold stepOversAndMaiden
  dsimp only
  repeat' split
  all_goals simp

theorem stepOvers_balls (i : InningsState) (e : BallEvent) (l : Bool) :
    ((stepOversAndMaiden i e l).1).balls =
      if l then (if i.balls + 1 = 6 then 0 else i.balls + 1) else i.balls := by
  unfold stepOversAndMaiden
  dsimp only
  repeat' split
  all_goals simp_all

theorem stepOvers_overs (i : InningsState) (e : BallEvent) (l : Bool) :
    ((stepOversAndMaiden i e l).1).overs =
      if l ∧ i.balls + 1 = 6 then i.overs + 1 else i.overs := by
  unfold stepOversAndMaiden
  dsimp only
  repeat' split
  all_goals simp_all

@[simp] theorem stepOvers_wickets (i : InningsState) (e : BallEvent) (l : Bool)
    (b : String) :
    wicketsOfBowler ((stepOversAndMaiden i e l).1) b = wicketsOfBowler i b := by
  unfold stepOversAndMaiden
  dsimp only
  repeat' split
  all_goals (try rfl)
  all_goals
    (unfold wicketsOfBowler
     dsimp only
     rw [lookupA_updateA_map]
     intro v
     rfl)

@[simp] theorem stepPartnership_striker (i : InningsState) (e : BallEvent) (l : Bool) :
    (stepPartnership i e l).batsmanOnStrike = i.batsmanOnStrike := by
  simp [stepPartnership]

@[simp] theorem stepPartnership_nonStriker (i : InningsState) (e : BallEvent) (l : Bool) :
    (stepPartnership i e l).batsmanNonStrike = i.batsmanNonStrike := by
  simp [stepPartnership]

@[simp] theorem stepPartnership_balls (i : InningsState) (e : BallEvent) (l : Bool) :
    (stepPartnership i e l).balls = i.balls := by
  simp [stepPartnership]

@[simp] theorem stepPartnership_overs (i : InningsState) (e : BallEvent) (l : Bool) :
    (stepPartnership i e l).overs = i.overs := by
  simp [stepPartnership]

@[simp] theorem stepPartnership_totalRuns (i : InningsState) (e : BallEvent) (l : Bool) :
    (stepPartnership i e l).totalRuns = i.totalRuns := by
  simp [stepPartnership]

@[simp] theorem stepPartnership_status (i : InningsState) (e : BallEvent) (l : Bool) :
    (stepPartnership i e l).status = i.status := by
  simp [stepPartnership]

@[simp] theorem stepPartnership_bowlerStats (i : InningsState) (e : BallEvent) (l : Bool) :
    (stepPartnership i e l).bowlerStats = i.bowlerStats := by
  simp [stepPartnership]

@[simp] theorem stepPartnership_activeCount (i : InningsState) (e : BallEvent) (l : Bool) :
    activeCount (stepPartnership i e l) = activeCount i := by
  unfold stepPartnership activeCount
  dsimp only
  apply activeCount_updateFirstActive_preserve
  intro p
  rfl

@[simp] theorem handleWicket_striker (i : InningsState) (e : BallEvent) :
    ((handleWicket i e).1).batsmanOnStrike = i.batsmanOnStrike := by
  unfold handleWicket
  dsimp only
  repeat' split
  all_goals simp

@[simp] theorem handleWicket_nonStriker (i : InningsState) (e : BallEvent) :
    ((handleWicket i e).1).batsmanNonStrike = i.batsmanNonStrike := by
  unfold handleWicket
  dsimp only
  repeat' split
  all_goals simp

@[simp] theorem handleWicket_balls (i : InningsState) (e : BallEvent) :
    ((handleWicket i e).1).balls = i.balls := by
  unfold handleWicket
  dsimp only
  repeat' split
  all_goals simp

@[simp] theorem handleWicket_overs (i : InningsState) (e : BallEvent) :
    ((handleWicket i e).1).overs = i.overs := by
  unfold handleWicket
  dsimp only
  repeat' split
  all_goals simp

@[simp] theorem handleWicket_totalRuns (i : InningsState) (e : BallEvent) :
    ((handleWicket i e).1).totalRuns = i.totalRuns := by
  unfold handleWicket
  dsimp only
  repeat' split
  all_goals simp

@[simp] theorem handleWicket_status (i : InningsState) (e : BallEvent) :
    ((handleWicket i e).1).status = i.status := by
  unfold handleWicket
  dsimp only
  repeat' split
  all_goals simp

theorem handleWicket_activeCount (i : InningsState) (e : BallEvent) :
    activeCount ((handleWicket i e).1) = activeCount i - 1 := by
  unfold handleWicket activeCount
  dsimp only
  repeat' split
  all_goals
    (apply activeCount_updateFirstActive_close
     intro p
     rfl)

theorem handleWicket_bowlerStats_uncredited (i : InningsState) (e : BallEvent)
    (h : isWicketCreditedToBowler e.payload.wicket.type = false) :
    ((handleWicket i e).1).bowlerStats = i.bowlerStats := by
  unfold handleWicket
  simp [h]

@[simp] theorem handleStrikeRotation_balls (i : InningsState) (e : BallEvent)
    (cfg : MatchConfig) : (handleStrikeRotation i e cfg).balls = i.balls := by
  unfold handleStrikeRotation
  dsimp only
  repeat' split
  all_goals simp

@[simp] theorem handleStrikeRotation_overs (i : InningsState) (e : BallEvent)
    (cfg : MatchConfig) : (handleStrikeRotation i e cfg).overs = i.overs := by
  unfold handleStrikeRotation
  dsimp only
  repeat' split
  all_goals simp

@[simp] theorem handleStrikeRotation_totalRuns (i : InningsState) (e : BallEvent)
    (cfg : MatchConfig) : (handleStrikeRotation i e cfg).totalRuns = i.totalRuns := by
  unfold handleStrikeRotation
  dsimp only
  repeat' split
  all_goals simp

@[simp] theorem handleStrikeRotation_partnerships (i : InningsState) (e : BallEvent)
    (cfg : MatchConfig) : (handleStrikeRotation i e cfg).partnerships = i.partnerships := by
  unfold handleStrikeRotation
  dsimp only
  repeat' split
  all_goals simp

@[simp] theorem handleStrikeRotation_bowlerStats (i : InningsState) (e : BallEvent)
    (cfg : MatchConfig) : (handleStrikeRotation i e cfg).bowlerStats = i.bowlerStats := by
  unfold handleStrikeRotation
  dsimp only
  repeat' split
  all_goals simp

@[simp] theorem handleStrikeRotation_status (i : InningsState) (e : BallEvent)
    (cfg : MatchConfig) : (handleStrikeRotation i e cfg).status = i.status := by
  unfold handleStrikeRotation
  dsimp only
  repeat' split
  all_goals simp

@[simp] theorem stepRates_striker (i : InningsState) (cfg : MatchConfig) :
    (stepRates i cfg).batsmanOnStrike = i.batsmanOnStrike := by
  unfold stepRates
  dsimp only
  repeat' split
  all_goals simp

@[simp] theorem stepRates_nonStriker (i : InningsState) (cfg : MatchConfig) :
    (stepRates i cfg).batsmanNonStrike = i.batsmanNonStrike := by
  unfold stepRates
  dsimp only
  repeat' split
  all_goals simp

@[simp] theorem stepRates_totalRuns (i : InningsState) (cfg : MatchConfig) :
    (stepRates i cfg).totalRuns = i.totalRuns := by
  unfold stepRates
  dsimp only
  repeat' split
  all_goals simp

@[simp] theorem stepRates_partnerships (i : InningsState) (cfg : MatchConfig) :
    (stepRates i cfg).partnerships = i.partnerships := by
  unfold stepRates
  dsimp only
  repeat' split
  all_goals simp

@[simp] theorem stepRates_bowlerStats (i : InningsState) (cfg : MatchConfig) :
    (stepRates i cfg).bowlerStats = i.bowlerStats := by
  unfold stepRates
  dsimp only
  repeat' split
  all_goals simp

@[simp] theorem stepRates_status (i : InningsState) (cfg : MatchConfig) :
    (stepRates i cfg).status = i.status := by
  unfold stepRates
  dsimp only
  repeat' split
  all_goals simp

theorem handleStrikeRotation_strikers (i : InningsState) (e : BallEvent)
    (cfg : MatchConfig) :
    (handleStrikeRotation i e cfg).batsmanOnStrike =
      (if codeOddRuns e.payload ≠
          (decide (isLegalDelivery e.payload.extras.type cfg = true ∧ i.balls = 0 ∧ i.overs > 0))
       then i.batsmanNonStrike else i.batsmanOnStrike) ∧
    (handleStrikeRotation i e cfg).batsmanNonStrike =
      (if codeOddRuns e.payload ≠
          (decide (isLegalDelivery e.payload.extras.type cfg = true ∧ i.balls = 0 ∧ i.overs > 0))
       then i.batsmanOnStrike else i.batsmanNonStrike) := by
  unfold handleStrikeRotation codeOddRuns
  dsimp only
  constructor <;> (repeat' split) <;> simp_all

@[simp] theorem stepPartnership_filterActive (i : InningsState) (e : BallEvent) (l : Bool) :
    (((stepPartnership i e l).partnerships).filter fun p => p.isActive).length =
      ((i.partnerships).filter fun p => p.isActive).length := by
  unfold stepPartnership
  dsimp only
  apply activeCount_updateFirstActive_preserve
  intro p
  rfl

theorem handleWicket_filterActive (i : InningsState) (e : BallEvent) :
    ((((handleWicket i e).1).partnerships).filter fun p => p.isActive).length =
      ((i.partnerships).filter fun p => p.isActive).length - 1 := by
  unfold handleWicket
  dsimp only
  repeat' split
  all_goals
    (apply activeCount_updateFirstActive_close
     intro p
     rfl)

@[simp] theorem wob_stepRuns (i : InningsState) (e : BallEvent) (b : String) :
    wicketsOfBowler (stepRunsAndExtras i e) b = wicketsOfBowler i b := by
  unfold wicketsOfBowler
  rw [stepRunsAndExtras_bowlerStats]

@[simp] theorem wob_stepBatsman (i : InningsState) (e : BallEvent) (l : Bool) (b : String) :
    wicketsOfBowler (stepBatsmanStats i e l) b = wicketsOfBowler i b := by
  unfold wicketsOfBowler
  rw [stepBatsmanStats_bowlerStats]

@[simp] theorem wob_set_overHistory (i : InningsState) (v : List (List BallEvent)) (b : String) :
    wicketsOfBowler { i with overHistory := v } b = wicketsOfBowler i b := by
  unfold wicketsOfBowler
  rfl

@[simp] theorem wob_stepPartnership (i : InningsState) (e : BallEvent) (l : Bool) (b : String) :
    wicketsOfBowler (stepPartnership i e l) b = wicketsOfBowler i b := by
  unfold wicketsOfBowler
  rw [stepPartnership_bowlerStats]

@[simp] theorem wob_rotation (i : InningsState) (e : BallEvent) (cfg : MatchConfig) (b : String) :
    wicketsOfBowler (handleStrikeRotation i e cfg) b = wicketsOfBowler i b := by
  unfold wicketsOfBowler
  rw [handleStrikeRotation_bowlerStats]

@[simp] theorem wob_stepRates (i : InningsState) (cfg : MatchConfig) (b : String) :
    wicketsOfBowler (stepRates i cfg) b = wicketsOfBowler i b := by
  unfold wicketsOfBowler
  rw [stepRates_bowlerStats]

theorem wob_handleWicket_uncredited (i : InningsState) (e : BallEvent) (b : String)
    (h : isWicketCreditedToBowler e.payload.wicket.type = false) :
    wicketsOfBowler ((handleWicket i e).1) b = wicketsOfBowler i b := by
  unfold wicketsOfBowler
  rw [handleWicket_bowlerStats_uncredited i e h]

-- ===== Facts about one full application =====

theorem applyBall_totalRuns (i : InningsState) (e : BallEvent) (cfg : MatchConfig) :
    ((applyBallToInnings i e cfg).1).totalRuns = i.totalRuns + runContribution e := by
  unfold applyBallToInnings
  dsimp only
  by_cases hw : e.payload.wicket.isWicket <;> simp [hw]

theorem applyBall_activeCount (i : InningsState) (e : BallEvent) (cfg : MatchConfig) :
    activeCount ((applyBallToInnings i e cfg).1) =
      if e.payload.wicket.isWicket then activeCount i - 1 else activeCount i := by
  unfold applyBallToInnings activeCount
  dsimp only
  by_cases hw : e.payload.wicket.isWicket <;>
    simp [hw, handleWicket_filterActive]

theorem endOfOver_condition (L : Bool) (balls overs : Nat) :
    decide (L = true ∧
        (if L = true then (if balls + 1 = 6 then 0 else balls + 1) else balls) = 0 ∧
        (if L = true ∧ balls + 1 = 6 then overs + 1 else overs) > 0) =
      (L && decide (balls = 5)) := by
  cases L with
  | false => simp
  | true =>
      by_cases h6 : balls + 1 = 6
      · simp only [h6, true_and, if_true, if_pos (And.intro rfl h6)]
        simp
        omega
      · simp only [if_true]
        rw [if_neg h6, if_neg (fun hc : True ∧ balls + 1 = 6 => h6 hc.2)]
        simp
        omega

theorem applyBall_wickets_uncredited (i : InningsState) (e : BallEvent)
    (cfg : MatchConfig) (b : String)
    (h : isWicketCreditedToBowler e.payload.wicket.type = false) :
    wicketsOfBowler ((applyBallToInnings i e cfg).1) b = wicketsOfBowler i b := by
  unfold applyBallToInnings
  dsimp only
  by_cases hw : e.payload.wicket.isWicket
  · rw [wob_stepRates, wob_rotation, if_pos hw, wob_handleWicket_uncredited _ _ _ h,
      wob_stepPartnership, wob_set_overHistory, stepOvers_wickets, stepBowlerStats_wickets,
      wob_stepBatsman, wob_stepRuns]
  · rw [wob_stepRates, wob_rotation, if_neg hw]
    rw [wob_stepPartnership, wob_set_overHistory, stepOvers_wickets, stepBowlerStats_wickets,
      wob_stepBatsman, wob_stepRuns]

theorem rotation_after (S i : InningsState) (e : BallEvent) (cfg : MatchConfig)
    (hstr : S.batsmanOnStrike = i.batsmanOnStrike)
    (hnon : S.batsmanNonStrike = i.batsmanNonStrike)
    (hballs : S.balls =
      if isLegalDelivery e.payload.extras.type cfg = true
      then (if i.balls + 1 = 6 then 0 else i.balls + 1) else i.balls)
    (hovers : S.overs =
      if isLegalDelivery e.payload.extras.type cfg = true ∧ i.balls + 1 = 6
      then i.overs + 1 else i.overs) :
    (handleStrikeRotation S e cfg).batsmanOnStrike =
      (if codeOddRuns e.payload ≠
          (isLegalDelivery e.payload.extras.type cfg && decide (i.balls = 5))
       then i.batsmanNonStrike else i.batsmanOnStrike) ∧
    (handleStrikeRotation S e cfg).batsmanNonStrike =
      (if codeOddRuns e.payload ≠
          (isLegalDelivery e.payload.extras.type cfg && decide (i.balls = 5))
       then i.batsmanOnStrike else i.batsmanNonStrike) := by
  obtain ⟨h1, h2⟩ := handleStrikeRotation_strikers S e cfg
  rw [hstr, hnon, hballs, hovers] at h1 h2
  rw [endOfOver_condition] at h1 h2
  exact ⟨h1, h2⟩

-- ===== The hat-trick detector against the spec predicate =====

theorem hatPairs_core (events A B C D : List BallEvent) (p q r : BallEvent) (b : String)
    (hev : events = A ++ (p :: (B ++ (q :: (C ++ (r :: D))))))
    (hnd : events.Nodup) :
    hatPairsOK events b [p, q, r] = true ↔
      (B.filter (legalBy b) = [] ∧ C.filter (legalBy b) = []) := by
  have eq2 : events = (A ++ (p :: B)) ++ (q :: (C ++ (r :: D))) := by
    rw [hev]; simp
  have eq3 : events = (A ++ (p :: (B ++ [q]))) ++ (C ++ (r :: D)) := by
    rw [hev]; simp
  have eq4 : events = (A ++ (p :: (B ++ (q :: C)))) ++ (r :: D) := by
    rw [hev]; simp
  have h1 : idxOf events p = A.length := by
    rw [hev]
    exact idxOf_middle _ _ _ (hev ▸ hnd)
  have h2 : idxOf events q = A.length + 1 + B.length := by
    rw [eq2, idxOf_middle _ _ _ (eq2 ▸ hnd)]
    simp
    omega
  have h3 : idxOf events r = A.length + 1 + B.length + 1 + C.length := by
    rw [eq4, idxOf_middle _ _ _ (eq4 ▸ hnd)]
    simp
    omega
  have hs1 : jsSlice events (A.length + 1) (A.length + 1 + B.length) = B := by
    have hx : events = (A ++ [p]) ++ B ++ (q :: (C ++ (r :: D))) := by
      rw [hev]; simp
    have hlen : (A ++ [p]).length = A.length + 1 := by simp
    rw [hx, ← hlen]
    have := jsSlice_middle (A ++ [p]) B (q :: (C ++ (r :: D)))
    rw [hlen] at this ⊢
    exact this
  have hs2 : jsSlice events (A.length + 1 + B.length + 1) (A.length + 1 + B.length + 1 + C.length) = C := by
    have hx : events = (A ++ (p :: (B ++ [q]))) ++ C ++ (r :: D) := by
      rw [hev]; simp
    have hlen : (A ++ (p :: (B ++ [q]))).length = A.length + 1 + B.length + 1 := by
      simp; omega
    rw [hx, ← hlen]
    have := jsSlice_middle (A ++ (p :: (B ++ [q]))) C (r :: D)
    rw [hlen] at this ⊢
    exact this
  unfold hatPairsOK
  simp [hatPairsOK, List.length_eq_zero, legalBy, h1, h2, h3, hs1, hs2]

theorem filter_eq_nil_of_false {α : Type} {f : α → Bool} {l : List α}
    (h : ∀ e ∈ l, f e = false) : l.filter f = [] := by
  rw [List.filter_eq_nil_iff]
  intro a ha
  simp [h a ha]

theorem all_false_of_filter_eq_nil {α : Type} {f : α → Bool} {l : List α}
    (h : l.filter f = []) : ∀ e ∈ l, f e = false := by
  intro e he
  have := List.filter_eq_nil_iff.mp h e he
  cases hfe : f e with
  | false => rfl
  | true => exact absurd hfe this

theorem isHatTrick_eq (events : List BallEvent) (cur : BallEvent) :
    isHatTrick events cur =
      (if events.length < 2 then false
       else if ((events.filter (wicketBy cur.actors.bowler)).drop
           ((events.filter (wicketBy cur.actors.bowler)).length - 3)).length < 3 then false
       else hatPairsOK events cur.actors.bowler
         ((events.filter (wicketBy cur.actors.bowler)).drop
           ((events.filter (wicketBy cur.actors.bowler)).length - 3))) := rfl

set_option maxHeartbeats 1000000 in
theorem isHatTrick_iff (events : List BallEvent) (cur : BallEvent)
    (hnd : events.Nodup) :
    isHatTrick events cur = true ↔ specHatTrick events cur.actors.bowler := by
  rw [isHatTrick_eq]
  constructor
  · intro h
    by_cases hlen : events.length < 2
    · rw [if_pos hlen] at h
      exact absurd h (by simp)
    · rw [if_neg hlen] at h
      by_cases h3 : ((events.filter (wicketBy cur.actors.bowler)).drop
          ((events.filter (wicketBy cur.actors.bowler)).length - 3)).length < 3
      · rw [if_pos h3] at h
        exact absurd h (by simp)
      · rw [if_neg h3] at h
        have hlt3 : ((events.filter (wicketBy cur.actors.bowler)).drop
            ((events.filter (wicketBy cur.actors.bowler)).length - 3)).length = 3 := by
          rw [List.length_drop] at h3 ⊢
          omega
        obtain ⟨p, q, r, hpqr⟩ := List.length_eq_three.mp hlt3
        have hsplit : events.filter (wicketBy cur.actors.bowler) =
            (events.filter (wicketBy cur.actors.bowler)).take
              ((events.filter (wicketBy cur.actors.bowler)).length - 3) ++ (p :: [q, r]) := by
          rw [← hpqr, List.take_append_drop]
        obtain ⟨A, Y, hev1, hAf, hYf⟩ := filter_decomp (wicketBy cur.actors.bowler) events _ _ _ hsplit
        obtain ⟨B, Z, hY, hBf, hZf⟩ := filter_decomp (wicketBy cur.actors.bowler) Y [] [r] q (by simpa using hYf)
        obtain ⟨C, D, hZ, hCf, hDf⟩ := filter_decomp (wicketBy cur.actors.bowler) Z [] [] r (by simpa using hZf)
        have hev : events = A ++ (p :: (B ++ (q :: (C ++ (r :: D))))) := by
          rw [hev1, hY, hZ]
        have hp : wicketBy cur.actors.bowler p = true := by
          have hmem : p ∈ events.filter (wicketBy cur.actors.bowler) := by
            rw [hsplit]
            simp
          exact List.of_mem_filter hmem
        have hq : wicketBy cur.actors.bowler q = true := by
          have hmem : q ∈ events.filter (wicketBy cur.actors.bowler) := by
            rw [hsplit]
            simp
          exact List.of_mem_filter hmem
        have hr : wicketBy cur.actors.bowler r = true := by
          have hmem : r ∈ events.filter (wicketBy cur.actors.bowler) := by
            rw [hsplit]
            simp
          exact List.of_mem_filter hmem
        rw [hpqr] at h
        have hBC := (hatPairs_core events A B C D p q r cur.actors.bowler hev hnd).mp h
        exact ⟨A, B, C, D, p, q, r, hev, hp, hq, hr,
          all_false_of_filter_eq_nil hBf,
          all_false_of_filter_eq_nil hCf,
          all_false_of_filter_eq_nil hDf,
          all_false_of_filter_eq_nil hBC.1,
          all_false_of_filter_eq_nil hBC.2⟩
  · rintro ⟨A, B, C, D, p, q, r, hev, hp, hq, hr, hBw, hCw, hDw, hBl, hCl⟩
    have hfB : B.filter (wicketBy cur.actors.bowler) = [] := filter_eq_nil_of_false hBw
    have hfC : C.filter (wicketBy cur.actors.bowler) = [] := filter_eq_nil_of_false hCw
    have hfD : D.filter (wicketBy cur.actors.bowler) = [] := filter_eq_nil_of_false hDw
    have hws : events.filter (wicketBy cur.actors.bowler) =
        A.filter (wicketBy cur.actors.bowler) ++ [p, q, r] := by
      rw [hev]
      simp [List.filter_append, List.filter_cons, hp, hq, hr, hfB, hfC, hfD]
    have hlen : ¬events.length < 2 := by
      rw [hev]
      simp
      omega
    rw [if_neg hlen]
    have hcount : (events.filter (wicketBy cur.actors.bowler)).length - 3 =
        (A.filter (wicketBy cur.actors.bowler)).length := by
      rw [hws]
      simp
    have hdrop : (events.filter (wicketBy cur.actors.bowler)).drop
        ((events.filter (wicketBy cur.actors.bowler)).length - 3) = [p, q, r] := by
      rw [hcount, hws, List.drop_left]
    rw [hdrop]
    rw [if_neg (by simp)]
    exact (hatPairs_core events A B C D p q r cur.actors.bowler hev hnd).mpr
      ⟨filter_eq_nil_of_false hBl, filter_eq_nil_of_false hCl⟩

-- ===== Match-level plumbing lemmas =====

theorem setCurrentInnings_events (m : MatchState) (i : InningsState) :
    (setCurrentInnings m i).events = m.events := by
  unfold setCurrentInnings
  repeat' split
  all_goals rfl

theorem getCurrent_set (m : MatchState) (i j : InningsState)
    (hi : getCurrentInnings m = some j) :
    getCurrentInnings (setCurrentInnings m i) = some i := by
  unfold getCurrentInnings setCurrentInnings at *
  by_cases h1 : m.currentInnings = 1
  · simp [h1]
  · by_cases h2 : m.currentInnings = 2 <;> simp [h1, h2] at hi ⊢

theorem endMatch_innings (m : MatchState) :
    getCurrentInnings (endMatch m) = getCurrentInnings m := by
  unfold endMatch
  dsimp only
  repeat' split
  all_goals simp [getCurrentInnings]

theorem endMatch_events (m : MatchState) :
    (endMatch m).events = m.events := by
  unfold endMatch
  dsimp only
  repeat' split
  all_goals rfl

theorem totalRuns_setStatus (m : MatchState) (s : MatchStatus) :
    totalRunsOfCurrent { m with status := s } = totalRunsOfCurrent m := rfl

theorem events_setStatus (m : MatchState) (s : MatchStatus) :
    ({ m with status := s } : MatchState).events = m.events := rfl

theorem endInnings_totalRuns (m : MatchState) :
    totalRunsOfCurrent (endInnings m) = totalRunsOfCurrent m := by
  unfold endInnings
  cases hc : getCurrentInnings m with
  | none => rfl
  | some i =>
      dsimp only
      by_cases hn : i.inningsNumber = 1
      · rw [if_pos hn, totalRuns_setStatus]
        unfold totalRunsOfCurrent
        rw [getCurrent_set m _ i hc, hc]
        rfl
      · rw [if_neg hn]
        unfold totalRunsOfCurrent
        rw [endMatch_innings, getCurrent_set m _ i hc, hc]
        rfl

theorem endInnings_events (m : MatchState) :
    (endInnings m).events = m.events := by
  unfold endInnings
  cases hc : getCurrentInnings m with
  | none => rfl
  | some i =>
      dsimp only
      by_cases hn : i.inningsNumber = 1
      · rw [if_pos hn, events_setStatus]
        exact setCurrentInnings_events _ _
      · rw [if_neg hn, endMatch_events]
        exact setCurrentInnings_events _ _

-- ===== processBall and processAll =====

theorem getCurrent_pushEvents (m : MatchState) (e : BallEvent) :
    getCurrentInnings
      { m with events := m.events ++ [e], undoStack := m.undoStack ++ [e],
               eventCounter := m.eventCounter + 1 } = getCurrentInnings m := rfl

theorem events_pushEvents (m : MatchState) (e : BallEvent) :
    ({ m with events := m.events ++ [e], undoStack := m.undoStack ++ [e],
              eventCounter := m.eventCounter + 1 } : MatchState).events = m.events ++ [e] := rfl

theorem processBall_ok (m : MatchState) (dto : CreateBallEventDto)
    (out : ProcessOutcome) (i : InningsState)
    (h : processBall m dto = Except.ok out)
    (hi : getCurrentInnings m = some i) :
    totalRunsOfCurrent out.matchState = some (i.totalRuns + dtoRunContribution dto) ∧
    out.matchState.events = m.events ++ [out.event] ∧
    out.event.isDeleted = false ∧
    runContribution out.event = dtoRunContribution dto := by
  unfold processBall at h
  rw [hi] at h
  dsimp only at h
  cases hv : validateBallEvent m i dto with
  | some e =>
      rw [hv] at h
      exact absurd h (by simp)
  | none =>
      rw [hv] at h
      dsimp only at h
      injection h with h
      subst h
      dsimp only
      have hContr : runContribution (createBallEvent m dto) = dtoRunContribution dto := rfl
      have happ := applyBall_totalRuns i (createBallEvent m dto) m.config
      have hset : totalRunsOfCurrent
          (setCurrentInnings m ((applyBallToInnings i (createBallEvent m dto) m.config).1)) =
          some (i.totalRuns + dtoRunContribution dto) := by
        unfold totalRunsOfCurrent
        rw [getCurrent_set m _ i hi]
        simp [happ, hContr]
      refine ⟨?_, ?_, rfl, hContr⟩
      · split
        · unfold totalRunsOfCurrent
          rw [getCurrent_pushEvents]
          have h2 := endInnings_totalRuns
            (setCurrentInnings m ((applyBallToInnings i (createBallEvent m dto) m.config).1))
          rw [hset] at h2
          unfold totalRunsOfCurrent at h2
          rw [h2]
        · unfold totalRunsOfCurrent
          rw [getCurrent_pushEvents]
          unfold totalRunsOfCurrent at hset
          rw [hset]
      · split
        · rw [endInnings_events, setCurrentInnings_events]
        · rw [setCurrentInnings_events]

theorem codeDeliverySum_push (es : List BallEvent) (e : BallEvent)
    (hd : e.isDeleted = false) :
    codeDeliverySum (es ++ [e]) = codeDeliverySum es + runContribution e := by
  unfold codeDeliverySum
  simp [List.filter_append, hd]

theorem processAll_ok (dtos : List CreateBallEventDto) :
    ∀ (m m' : MatchState) (ts : List Trigger),
      processAll m dtos = Except.ok (m', ts) →
      ∀ i, getCurrentInnings m = some i →
      totalRunsOfCurrent m' = some (i.totalRuns + (dtos.map dtoRunContribution).sum) ∧
      codeDeliverySum m'.events =
        codeDeliverySum m.events + (dtos.map dtoRunContribution).sum := by
  induction dtos with
  | nil =>
      intro m m' ts h i hi
      unfold processAll at h
      injection h with h
      cases h
      simp [totalRunsOfCurrent, hi]
  | cons dto rest ih =>
      intro m m' ts h i hi
      unfold processAll at h
      cases hp : processBall m dto with
      | error e =>
          rw [hp] at h
          exact absurd h (by simp)
      | ok out =>
          rw [hp] at h
          dsimp only at h
          cases hr : processAll out.matchState rest with
          | error e =>
              rw [hr] at h
              exact absurd h (by simp)
          | ok pr =>
              obtain ⟨mr, tsr⟩ := pr
              rw [hr] at h
              dsimp only at h
              injection h with h
              cases h
              obtain ⟨hTot, hEv, hDel, hContr⟩ := processBall_ok m dto out i hp hi
              unfold totalRunsOfCurrent at hTot
              obtain ⟨i2, hi2, hi2t⟩ := Option.map_eq_some'.mp hTot
              obtain ⟨ihTot, ihSum⟩ := ih out.matchState m' tsr hr i2 hi2
              constructor
              · rw [ihTot, hi2t]
                simp [add_assoc]
              · rw [ihSum, hEv, codeDeliverySum_push _ _ hDel, hContr]
                simp [add_assoc]

-- ===== Lifecycle operations and the active partnership =====

theorem startInnings_active (m : MatchState) (dto : StartInningsDto) (m' : MatchState)
    (h : startInnings m dto = Except.ok m') :
    activeCountOfCurrent m' = some 1 ∧
    statusOfCurrent m' = some InningsStatus.inProgress := by
  unfold startInnings at h
  split at h
  · exact absurd h (by simp)
  · dsimp only at h
    injection h with h
    subst h
    by_cases ht : m.status = MatchStatus.toss
    · simp [ht, activeCountOfCurrent, statusOfCurrent, getCurrentInnings, activeCount]
    · cases hi1 : m.innings1 <;>
        simp [ht, hi1, activeCountOfCurrent, statusOfCurrent, getCurrentInnings, activeCount]

theorem bringNewBatsman_active (m : MatchState) (nb : String) (strike : Bool)
    (m' : MatchState) (h : bringNewBatsman m nb strike = Except.ok m') :
    activeCountOfCurrent m' = (activeCountOfCurrent m).map (· + 1) := by
  unfold bringNewBatsman at h
  cases hc : getCurrentInnings m with
  | none =>
      rw [hc] at h
      exact absurd h (by simp)
  | some i =>
      rw [hc] at h
      dsimp only at h
      injection h with h
      subst h
      unfold activeCountOfCurrent
      rw [getCurrent_set m _ i hc, hc]
      simp only [Option.map_some']
      unfold activeCount
      congr 1
      repeat' split
      all_goals simp [List.filter_append]

theorem changeBowler_partnerships (m : MatchState) (nb : String) (m' : MatchState)
    (h : changeBowler m nb = Except.ok m') :
    (getCurrentInnings m').map (fun i => i.partnerships) =
      (getCurrentInnings m).map (fun i => i.partnerships) := by
  unfold changeBowler at h
  cases hc : getCurrentInnings m with
  | none =>
      rw [hc] at h
      exact absurd h (by simp)
  | some i =>
      rw [hc] at h
      dsimp only at h
      repeat' split at h
      all_goals
        first
          | exact Except.noConfusion h
          | (injection h with h
             subst h
             simp [getCurrent_set m _ i hc, hc])

-- ============================================================
-- The claims.
-- ============================================================

/-- Claim C1 (code bug): applying one delivery worth a single run and then
calling undoLastBall does not restore the innings state.  The event is
removed from the log, yet totalRuns stays at 1 instead of returning to 0 and
the striker stays swapped, contradicting the restore-the-snapshot contract
stated by the claim (and conceded by the comment inside undoLastBall). -/
theorem C1_undo_leaves_state_stale :
    totalRunsOfCurrent startedMatch = some 0 ∧
    strikerOfCurrent startedMatch = some (some "b1") ∧
    totalRunsOfCurrent c1Applied = some 1 ∧
    c1Undone.events = [] ∧
    totalRunsOfCurrent c1Undone = some 1 ∧
    strikerOfCurrent c1Undone = some (some "b2") := by
  decide

/-- Claim C2 counterexample: with wideRedelivery disabled the claim says a
wide counts as a legal delivery, but isLegalDelivery still reports it
illegal, because its final return requires the type to differ from wide and
no-ball regardless of the toggles. -/
theorem C2_counterexample :
    cfgTogglesOff.wideRedelivery = false ∧
    isLegalDelivery ExtraType.wide cfgTogglesOff = false ∧
    claimIsLegalDelivery ExtraType.wide cfgTogglesOff = true := by
  decide

/-- Claim C2 as amended: a delivery is illegal exactly when its extra type
is wide or no-ball; the two redelivery toggles have no effect on legality. -/
theorem C2_amended_legality (t : ExtraType) (cfg : MatchConfig) :
    isLegalDelivery t cfg =
      (decide (t ≠ ExtraType.wide) && decide (t ≠ ExtraType.noBall)) := by
  cases t <;> simp [isLegalDelivery]

/-- Claim C3 counterexample: a wide carrying one extras run in the middle of
an over.  The claim's oddRuns (the run-accounting total, here 1) is odd and
the delivery does not complete an over (it is illegal), so the claim demands
a strike swap; the source computes the rotation total without wide runs and
leaves the striker in place. -/
theorem C3_counterexample :
    claimOddRuns c3Event.payload = true ∧
    isLegalDelivery c3Event.payload.extras.type startedMatch.config = false ∧
    startedInnings.balls = 0 ∧
    ((applyBallToInnings startedInnings c3Event startedMatch.config).1).batsmanOnStrike =
      startedInnings.batsmanOnStrike ∧
    startedInnings.batsmanOnStrike = some "b1" := by
  decide

/-- Claim C3 as amended: the strike swaps after an applied delivery exactly
when the XOR of codeOddRuns (runs off bat, plus extras runs only for byes
and leg byes, odd) and over-completion (a legal delivery with the pre-ball
counter at 5) holds; when both hold the striker does not change. -/
theorem C3_amended_strike_rotation (i : InningsState) (e : BallEvent)
    (cfg : MatchConfig) :
    ((applyBallToInnings i e cfg).1).batsmanOnStrike =
      (if codeOddRuns e.payload ≠
          (isLegalDelivery e.payload.extras.type cfg && decide (i.balls = 5))
       then i.batsmanNonStrike else i.batsmanOnStrike) ∧
    ((applyBallToInnings i e cfg).1).batsmanNonStrike =
      (if codeOddRuns e.payload ≠
          (isLegalDelivery e.payload.extras.type cfg && decide (i.balls = 5))
       then i.batsmanOnStrike else i.batsmanNonStrike) := by
  unfold applyBallToInnings
  dsimp only
  constructor
  · rw [stepRates_striker]
    refine (rotation_after _ i e cfg ?_ ?_ ?_ ?_).1
    · split <;> simp
    · split <;> simp
    · split <;> simp [stepOvers_balls]
    · split <;> simp [stepOvers_overs]
  · rw [stepRates_nonStriker]
    refine (rotation_after _ i e cfg ?_ ?_ ?_ ?_).2
    · split <;> simp
    · split <;> simp
    · split <;> simp [stepOvers_balls]
    · split <;> simp [stepOvers_overs]

/-- Claim C4 (code bug): five dot balls followed by a boundary off the bat
on the sixth legal delivery.  The over scored four runs off the bat, so the
claim forbids a maiden; the source still credits the bowler one maiden and
fires the maiden trigger once, because the sixth ball is appended to the
next over bucket after the rollover and the evaluated bucket holds only the
first five deliveries. -/
theorem C4_maiden_miscredited :
    fourDto.runsScored = 4 ∧
    (c4Result.map fun r => countTrigger r.2 Trigger.maidenOver) = some 1 ∧
    (c4Result.bind fun r => (getCurrentInnings r.1).bind fun i =>
      maidensOfBowler i "bw") = some 1 ∧
    (c4Result.bind fun r => totalRunsOfCurrent r.1) = some 4 := by
  decide

/-- Claim C5 (confirmed): the hat-trick detector returns true exactly when
the event log decomposes around the last three wicket-deliveries of the
acting bowler with no legal delivery of that same bowler strictly between
the consecutive pairs, deliveries of other bowlers and wides or no-balls of
the same bowler not breaking the chain. -/
theorem C5_hat_trick_iff (events : List BallEvent) (cur : BallEvent)
    (hnd : events.Nodup) :
    isHatTrick events cur = true ↔ specHatTrick events cur.actors.bowler :=
  isHatTrick_iff events cur hnd

/-- Witness for C5: the spanning scenario with wickets on two consecutive
balls of bowler x, an over by bowler y in between, and a third wicket on the
next ball of x fires the detector. -/
theorem C5_hat_trick_iff_witness :
    (isHatTrick hatEvents hatCurrent = true ↔
      specHatTrick hatEvents hatCurrent.actors.bowler) ∧
    isHatTrick hatEvents hatCurrent = true :=
  ⟨C5_hat_trick_iff hatEvents hatCurrent (by decide), by decide⟩

/-- Claim C6 (confirmed): exactly one five-wicket-haul reward is produced on
a wicket ball when the snapshot taken before the ball holds exactly 4
bowler wickets and the post-ball tally reaches at least 5; the bowler is
credited only for bowled, caught, lbw, stumped and hit-wicket dismissals, so
a run-out never moves a bowler's wicket count through one applied ball. -/
theorem C6_five_wicket_haul :
    (∀ (m : MatchState) (innings : InningsState) (e : BallEvent) (prev : PrevState),
      countTier (checkTokenRewards m innings e prev) TokenTier.fiveWicketHaul =
        (match lookupA innings.bowlerStats e.actors.bowler with
         | some s =>
             if e.payload.wicket.isWicket = true ∧ prev.bowlerWickets = 4 ∧ 5 ≤ s.wickets
             then 1 else 0
         | Option.none => 0)) ∧
    (∀ t : WicketType, isWicketCreditedToBowler (some t) =
      decide (t = WicketType.bowled ∨ t = WicketType.caught ∨ t = WicketType.lbw ∨
        t = WicketType.stumped ∨ t = WicketType.hitWicket)) ∧
    (∀ (i : InningsState) (e : BallEvent) (cfg : MatchConfig),
      wicketsOfBowler
          ((applyBallToInnings i (withWicketType e (some WicketType.runOut)) cfg).1)
          e.actors.bowler =
        wicketsOfBowler i e.actors.bowler) := by
  refine ⟨?_, ?_, ?_⟩
  · intro m innings e prev
    unfold checkTokenRewards countTier
    cases hbat : lookupA innings.batsmanStats e.actors.batsmanOnStrike <;>
      cases hbowl : lookupA innings.bowlerStats e.actors.bowler <;>
      dsimp only <;>
      (repeat' split) <;>
      simp_all
  · intro t
    cases t <;> rfl
  · intro i e cfg
    exact applyBall_wickets_uncredited i (withWicketType e (some WicketType.runOut)) cfg
      e.actors.bowler (by rfl)

/-- Claim C7 (code bug): a delivery with 7 runs off the bat and extra type
none is accepted by processBall instead of failing validation.  The guard
tests the JS falsiness of the extras type, and the enum string of the none
member is non-empty and hence truthy, so the out-of-range check never
fires; the ball is applied (7 runs added) and an event is appended. -/
theorem C7_dead_runs_guard :
    sevenRunDto.runsScored = 7 ∧
    sevenRunDto.extras.type = ExtraType.none ∧
    extraTypeStr ExtraType.none = "none" ∧
    (c7Result.bind totalRunsOfCurrent) = some 7 ∧
    (c7Result.map fun m => m.events.length) = some 1 := by
  decide

/-- Claim C8 counterexample: a delivery with extra type none but a nonzero
extras runs field is applied successfully; the source adds only the runs
off the bat (total stays 0) while the claim's sum of runs off bat plus
extras runs over the appended events yields 1. -/
theorem C8_counterexample :
    noneOneDto.extras.runs = 1 ∧
    (c8cResult.bind totalRunsOfCurrent) = some 0 ∧
    (c8cResult.map fun m => claimDeliverySum m.events) = some 1 := by
  decide

/-- Claim C8 as amended: along every successfully processed sequence of
deliveries starting from a fresh innings, totalRuns equals the sum over the
non-deleted events of runs off bat plus extras runs, the extras counted
only when the extra type is not none. -/
theorem C8_amended_total_runs (m0 : MatchState) (dtos : List CreateBallEventDto)
    (m' : MatchState) (ts : List Trigger) (i0 : InningsState)
    (h : processAll m0 dtos = Except.ok (m', ts))
    (hi : getCurrentInnings m0 = some i0)
    (hz : i0.totalRuns = 0)
    (he : m0.events = []) :
    totalRunsOfCurrent m' = some (codeDeliverySum m'.events) := by
  obtain ⟨h1, h2⟩ := processAll_ok dtos m0 m' ts h i0 hi
  rw [h1, hz, h2, he]
  simp [codeDeliverySum]

/-- Witness for C8: a dot ball, a boundary and a wide processed from a fresh
innings. -/
theorem C8_amended_total_runs_witness :
    totalRunsOfCurrent c8Final = some (codeDeliverySum c8Final.events) :=
  C8_amended_total_runs startedMatch c8Dtos c8Final c8Ts startedInnings
    (by with_unfolding_all rfl) (by decide) (by decide) (by decide)

/-- Claim C9 counterexample: a wicket on the first ball of a started innings
leaves the innings in progress with zero active partnerships, not exactly
one as the claim requires after every public operation. -/
theorem C9_counterexample :
    (c9AfterWicketM.events.length = 1) ∧
    statusOfCurrent c9AfterWicketM = some InningsStatus.inProgress ∧
    activeCountOfCurrent c9AfterWicketM = some 0 := by
  decide

/-- Claim C9 as amended: startInnings creates exactly one active
partnership; an applied wicket delivery closes the first active partnership
so the active count drops by one (to zero in the intended single-active
state) and stays put otherwise; bringNewBatsman always pushes one more
active partnership and deactivates none; changeBowler leaves the
partnership list untouched.  The exactly-one invariant therefore holds only
between a wicket and the matching bringNewBatsman call. -/
theorem C9_amended_partnership_lifecycle :
    (∀ (m : MatchState) (dto : StartInningsDto) (m' : MatchState),
      startInnings m dto = Except.ok m' →
        activeCountOfCurrent m' = some 1 ∧
        statusOfCurrent m' = some InningsStatus.inProgress) ∧
    (∀ (i : InningsState) (e : BallEvent) (cfg : MatchConfig),
      activeCount ((applyBallToInnings i e cfg).1) =
        if e.payload.wicket.isWicket then activeCount i - 1 else activeCount i) ∧
    (∀ (m : MatchState) (nb : String) (strike : Bool) (m' : MatchState),
      bringNewBatsman m nb strike = Except.ok m' →
        activeCountOfCurrent m' = (activeCountOfCurrent m).map (· + 1)) ∧
    (∀ (m : MatchState) (nb : String) (m' : MatchState),
      changeBowler m nb = Except.ok m' →
        (getCurrentInnings m').map (fun i => i.partnerships) =
          (getCurrentInnings m).map (fun i => i.partnerships)) :=
  ⟨startInnings_active, applyBall_activeCount, bringNewBatsman_active,
    changeBowler_partnerships⟩

/-- Witness for C9: the started fixture, a wicket ball, a replacement
batsman and a bowler change. -/
theorem C9_amended_partnership_lifecycle_witness :
    (activeCountOfCurrent startedMatch = some 1 ∧
      statusOfCurrent startedMatch = some InningsStatus.inProgress) ∧
    activeCount ((applyBallToInnings startedInnings c10Event startedMatch.config).1) =
      (if c10Event.payload.wicket.isWicket then activeCount startedInnings - 1
       else activeCount startedInnings) ∧
    activeCountOfCurrent c9NewBatsman = (activeCountOfCurrent c9AfterWicketM).map (· + 1) ∧
    (getCurrentInnings c9Bowler).map (fun i => i.partnerships) =
      (getCurrentInnings startedMatch).map (fun i => i.partnerships) :=
  ⟨C9_amended_partnership_lifecycle.1 tossedMatch startDto startedMatch (by with_unfolding_all rfl),
   C9_amended_partnership_lifecycle.2.1 startedInnings c10Event startedMatch.config,
   C9_amended_partnership_lifecycle.2.2.1 c9AfterWicketM "b3" true c9NewBatsman
     (by with_unfolding_all rfl),
   C9_amended_partnership_lifecycle.2.2.2 startedMatch "bw2" c9Bowler
     (by with_unfolding_all rfl)⟩

/-- Claim C10 (confirmed): when a wicket payload omits the dismissed player,
handleWicket records the batsman on strike as dismissed: the striker's
statistics are marked out with the given dismissal type, bowler and fielder,
and the appended fall-of-wicket record names the striker. -/
theorem C10_default_dismissed_striker (i : InningsState) (e : BallEvent)
    (_hw : e.payload.wicket.isWicket = true)
    (hd : e.payload.wicket.dismissedPlayer = Option.none) :
    lookupA ((handleWicket i e).1).batsmanStats e.actors.batsmanOnStrike =
      (lookupA i.batsmanStats e.actors.batsmanOnStrike).map (fun bs =>
        { bs with isOut := true, dismissalType := e.payload.wicket.type,
                  dismissedBy := some e.actors.bowler,
                  fielder := e.payload.wicket.fielder }) ∧
    ((handleWicket i e).1).fallOfWickets = i.fallOfWickets ++
      [({ wicketNumber := i.wickets + 1, score := i.totalRuns, overs := i.overs,
          balls := i.balls, dismissedPlayer := e.actors.batsmanOnStrike,
          dismissalType := e.payload.wicket.type } : FallOfWicket)] := by
  unfold handleWicket
  dsimp only
  simp only [hd]
  constructor
  · split <;> simp [lookupA_updateA, jsOrElse]
  · split <;> simp [jsOrElse]

/-- Witness for C10: the wicket fixture on the started innings, with no
dismissed player named. -/
theorem C10_default_dismissed_striker_witness :
    lookupA ((handleWicket startedInnings c10Event).1).batsmanStats
        c10Event.actors.batsmanOnStrike =
      (lookupA startedInnings.batsmanStats c10Event.actors.batsmanOnStrike).map (fun bs =>
        { bs with isOut := true, dismissalType := c10Event.payload.wicket.type,
                  dismissedBy := some c10Event.actors.bowler,
                  fielder := c10Event.payload.wicket.fielder }) ∧
    ((handleWicket startedInnings c10Event).1).fallOfWickets =
      startedInnings.fallOfWickets ++
      [({ wicketNumber := startedInnings.wickets + 1, score := startedInnings.totalRuns,
          overs := startedInnings.overs, balls := startedInnings.balls,
          dismissedPlayer := c10Event.actors.batsmanOnStrike,
          dismissalType := c10Event.payload.wicket.type } : FallOfWicket)] :=
  C10_default_dismissed_striker startedInnings c10Event (by decide) (by decide)

end Cricket
